import Mathlib

/-!
Verification of the INSIGHT job-pipeline core (server/api.py, server/mongodb_store.py).

The MongoDB collections are modelled as association lists keyed by their `_id`
(`_id` carries a unique index in MongoDB, so `update_one`/`delete_one` by `_id`
touch exactly the matching entries).  Wall-clock timestamps are integers
(seconds); external collaborators (the Claude analyzer, the Reddit scraper) are
modelled by passing their outcome as explicit input data, as the spec's
capability-interface view prescribes.
-/

namespace Insight

/-! Association-list primitives for `_id`-keyed collections. -/

def lookupKey {α β : Type} [DecidableEq α] : List (α × β) → α → Option β
  | [], _ => none
  | kv :: rest, k => if kv.fst = k then some kv.snd else lookupKey rest k

/-- Mongo `update_one` filtered by `_id`: rewrite the matching entries in place. -/
def updateKey {α β : Type} [DecidableEq α] (l : List (α × β)) (k : α) (v : β) : List (α × β) :=
  l.map (fun kv => if kv.fst = k then (k, v) else kv)

/-- Mongo `delete_one` filtered by `_id` (unique index): drop the matching entries. -/
def removeKey {α β : Type} [DecidableEq α] : List (α × β) → α → List (α × β)
  | [], _ => []
  | kv :: rest, k => if kv.fst = k then removeKey rest k else kv :: removeKey rest k

/-- Mongo `update_one(..., upsert=True)` by `_id`. -/
def upsertKey {α β : Type} [DecidableEq α] (l : List (α × β)) (k : α) (v : β) : List (α × β) :=
  if (lookupKey l k).isSome then updateKey l k v else l ++ [(k, v)]

theorem lookupKey_updateKey_self {α β : Type} [DecidableEq α] (l : List (α × β)) (k : α) (v : β) :
    lookupKey (updateKey l k v) k = (lookupKey l k).map (fun _ => v) := by
  induction l with
  | nil => rfl
  | cons kv rest ih =>
    simp only [updateKey, List.map_cons, lookupKey]
    by_cases h : kv.fst = k
    · simp [h]
    · simp only [h, if_false]
      simpa [updateKey] using ih

theorem lookupKey_updateKey_ne {α β : Type} [DecidableEq α] (l : List (α × β)) (k k' : α)
    (v : β) (h : k' ≠ k) : lookupKey (updateKey l k v) k' = lookupKey l k' := by
  have hne : ¬ k = k' := fun he => h he.symm
  induction l with
  | nil => rfl
  | cons kv rest ih =>
    by_cases hk : kv.fst = k
    · simp only [updateKey, List.map_cons, lookupKey] at ih ⊢
      simp [hk, hne, ih]
    · simp only [updateKey, List.map_cons, lookupKey] at ih ⊢
      simp only [hk, if_false]
      by_cases hk' : kv.fst = k'
      · simp [hk']
      · simp [hk', ih]

theorem lookupKey_removeKey_self {α β : Type} [DecidableEq α] (l : List (α × β)) (k : α) :
    lookupKey (removeKey l k) k = none := by
  induction l with
  | nil => rfl
  | cons kv rest ih =>
    simp only [removeKey]
    by_cases h : kv.fst = k
    · simpa [h] using ih
    · simpa [lookupKey, h] using ih

theorem lookupKey_removeKey_ne {α β : Type} [DecidableEq α] (l : List (α × β)) (k k' : α)
    (h : k' ≠ k) : lookupKey (removeKey l k) k' = lookupKey l k' := by
  induction l with
  | nil => rfl
  | cons kv rest ih =>
    simp only [removeKey, lookupKey]
    by_cases hk : kv.fst = k
    · rw [if_pos hk, ih, if_neg (by rw [hk]; exact fun he => h he.symm)]
    · simp only [hk, if_false, lookupKey]
      by_cases hk' : kv.fst = k'
      · simp [hk']
      · simp [hk', ih]

theorem lookupKey_append {α β : Type} [DecidableEq α] (l₁ l₂ : List (α × β)) (k : α) :
    lookupKey (l₁ ++ l₂) k = match lookupKey l₁ k with
      | some v => some v
      | none => lookupKey l₂ k := by
  induction l₁ with
  | nil => simp [lookupKey]
  | cons kv rest ih =>
    simp only [List.cons_append, lookupKey]
    by_cases h : kv.fst = k
    · simp [h]
    · simp [h, ih]

theorem lookupKey_upsertKey_self {α β : Type} [DecidableEq α] (l : List (α × β)) (k : α) (v : β) :
    lookupKey (upsertKey l k v) k = some v := by
  unfold upsertKey
  by_cases h : (lookupKey l k).isSome
  · rw [if_pos h, lookupKey_updateKey_self]
    cases hl : lookupKey l k with
    | some w => rfl
    | none => rw [hl] at h; simp at h
  · rw [if_neg h, lookupKey_append]
    cases hl : lookupKey l k with
    | some w => rw [hl] at h; simp at h
    | none => simp [lookupKey]

theorem lookupKey_upsertKey_ne {α β : Type} [DecidableEq α] (l : List (α × β)) (k k' : α)
    (v : β) (h : k' ≠ k) : lookupKey (upsertKey l k v) k' = lookupKey l k' := by
  unfold upsertKey
  by_cases hs : (lookupKey l k).isSome
  · rw [if_pos hs, lookupKey_updateKey_ne l k k' v h]
  · rw [if_neg hs, lookupKey_append]
    cases hl : lookupKey l k' with
    | some w => rfl
    | none =>
      have hne : ¬ k = k' := fun he => h he.symm
      simp [lookupKey, hne]

theorem mem_of_lookupKey {α β : Type} [DecidableEq α] (l : List (α × β)) (k : α) (v : β)
    (h : lookupKey l k = some v) : (k, v) ∈ l := by
  induction l with
  | nil => simp [lookupKey] at h
  | cons kv rest ih =>
    simp only [lookupKey] at h
    by_cases hk : kv.fst = k
    · rw [if_pos hk] at h
      have hkv : kv = (k, v) := by
        cases kv
        simp_all
      rw [hkv]
      exact List.mem_cons_self _ _
    · rw [if_neg hk] at h
      exact List.mem_cons_of_mem _ (ih h)

theorem lookupKey_eq_of_mem_of_nodup {α β : Type} [DecidableEq α] (l : List (α × β)) (k : α)
    (v : β) (hm : (k, v) ∈ l) (hn : (l.map Prod.fst).Nodup) : lookupKey l k = some v := by
  induction l with
  | nil => simp at hm
  | cons kv rest ih =>
    simp only [List.map_cons, List.nodup_cons] at hn
    rcases List.mem_cons.mp hm with h | h
    · subst h
      simp [lookupKey]
    · have hne : kv.fst ≠ k := by
        intro he
        exact hn.1 (by rw [he]; exact List.mem_map.mpr ⟨(k, v), h, rfl⟩)
      simp only [lookupKey, if_neg hne]
      exact ih h hn.2

theorem map_fst_updateKey {α β : Type} [DecidableEq α] (l : List (α × β)) (k : α) (v : β) :
    (updateKey l k v).map Prod.fst = l.map Prod.fst := by
  induction l with
  | nil => rfl
  | cons kv rest ih =>
    simp only [updateKey, List.map_cons] at ih ⊢
    by_cases h : kv.fst = k
    · simp [h, ih]
    · simp [h, ih]

/-! Python string primitives, defined by structural recursion over the
character list so that concrete terms evaluate inside the kernel
(`String.trim`, `String.toLower`, `String.splitOn` and numeral rendering from
the standard library are defined by well-founded recursion and do not). -/

/-- Python `str.strip()`. -/
def trimChars (l : List Char) : List Char :=
  ((l.dropWhile Char.isWhitespace).reverse.dropWhile Char.isWhitespace).reverse

def pyStrip (s : String) : String := String.mk (trimChars s.data)

/-- Python `str.lower()` (ASCII). -/
def pyLower (s : String) : String := String.mk (s.data.map Char.toLower)

/-- Python `s[:n]`. -/
def pyTake (s : String) (n : Nat) : String := String.mk (s.data.take n)

def digitChar (n : Nat) : Char :=
  if n = 0 then '0' else if n = 1 then '1' else if n = 2 then '2' else if n = 3 then '3'
  else if n = 4 then '4' else if n = 5 then '5' else if n = 6 then '6' else if n = 7 then '7'
  else if n = 8 then '8' else '9'

def natToStrGo : Nat → Nat → List Char
  | 0, _ => []
  | fuel+1, n => if n < 10 then [digitChar n] else natToStrGo fuel (n / 10) ++ [digitChar (n % 10)]

/-- Decimal rendering of a natural (Python `str(n)` / f-string interpolation). -/
def pyNatRepr (n : Nat) : String := String.mk (natToStrGo (n + 1) n)

/-- Decimal rendering of an integer. -/
def pyIntRepr (i : Int) : String :=
  if i < 0 then "-" ++ pyNatRepr i.natAbs else pyNatRepr i.toNat

/-- Python `s.split(',')` (keeps empty fields). -/
def splitCommaChars : List Char → List Char → List String
  | [], acc => [String.mk acc.reverse]
  | c :: rest, acc =>
    if c = ',' then String.mk acc.reverse :: splitCommaChars rest []
    else splitCommaChars rest (c :: acc)

def pySplitComma (s : String) : List String := splitCommaChars s.data []

/-! Data model (section 3 of the spec; `models.py` / the job documents of
`mongodb_store.py`).  Timestamps are seconds; credits are a natural number. -/

/-- Parameters of a scrape job (`job_parameters` built in `ScrapePosts.post`). -/
structure ScrapeParams where
  topic : String
  limit : Int
  time_filter : String
  is_custom : Bool
  subreddits : List String
  claude_search_queries : Option (List String) := none
deriving Repr, DecidableEq

/-- Parameters of an analysis job (`job_parameters` built in `RunAnalysis.post`). -/
structure AnalysisParams where
  product : String
  max_posts : Int
  skip_recommendations : Bool
  regenerate : Bool
deriving Repr, DecidableEq

/-- Parameters of a recommendations job (`job_parameters` built in `Recommendations.post`). -/
structure RecsParams where
  product : String
  recommendation_type : String
  regenerate : Bool
  context : Option String := none
deriving Repr, DecidableEq

inductive JobParams : Type where
  | scrape (p : ScrapeParams)
  | analysis (p : AnalysisParams)
  | recommendations (p : RecsParams)
deriving Repr, DecidableEq

/-- The `results` document written by the terminal-success path of each runner. -/
inductive JobResults : Type where
  | scrape (posts_count total_posts_found : Nat) (subreddits_used : List String)
      (topic : String) (duration_minutes : Int)
  | analysis (pain_points_count recommendations_count : Nat) (product : String)
      (duration_minutes : Int)
  | recommendations (product recommendation_type : String) (recommendations_count : Nat)
deriving Repr, DecidableEq

/-- Structured payload of a pipeline log entry (`details` in `append_job_log`). -/
inductive LogDetail : Type where
  | num (n : Int)
  | text (s : String)
  | items (l : List String)
  | counts (kv : List (String × Int))
  | results (r : JobResults)
deriving Repr, DecidableEq

structure LogEntry where
  step : String
  message : String
  timestamp : Int
  details : Option LogDetail := none
deriving Repr, DecidableEq

/-- A job document (`create_job` in `mongodb_store.py`; `status` is the job state). -/
structure Job where
  user_id : String
  status : String
  parameters : JobParams
  results : Option JobResults := none
  error : Option String := none
  credits_used : Option Nat := none
  created_at : Int
  started_at : Option Int := none
  completed_at : Option Int := none
  logs : List LogEntry := []
deriving Repr, DecidableEq

/-- A user-scoped analysis document (`save_anthropic_analysis`); the analysis
payload returned by the analyzer is kept as an opaque string. -/
structure AnalysisDoc where
  product : String
  analysis : String
  user_id : Option String := none
  created_at : Int
deriving Repr, DecidableEq

/-- A pain-point document (`save_pain_point` with the fields built in
`background_analysis`). -/
structure PainPoint where
  product : String
  user_id : String
  topic : String
  description : String
  severity : String
  potential_solutions : String
  related_keywords : List String
  engagement_summary : String
  created_at : Int
deriving Repr, DecidableEq

/-- A recommendations document (`save_recommendations`); one per
`(user, product, recommendation_type)`. -/
structure RecDoc where
  product : String
  recommendations : List String
  recommendation_type : String
  user_id : Option String := none
  summary : Option String := none
  timestamp : Option String := none
  created_at : Int
deriving Repr, DecidableEq

/-- A scraped Reddit post (`save_post`); `product` is set for job-scraped posts. -/
structure Post where
  id : String
  title : String
  content : String
  score : Int
  num_comments : Int
  product : Option String := none
  created_at : Int
deriving Repr, DecidableEq

/-- The persistent store: each field is one MongoDB collection keyed by its
`_id` (users are keyed by `username`, which carries a unique index; jobs by
their ObjectId, modelled as a dense natural counter `next_job_id`). -/
structure Store where
  users : List (String × Nat)
  jobs : List (Nat × Job)
  next_job_id : Nat
  posts : List (String × Post)
  pain_points : List (String × PainPoint)
  analyses : List (String × AnalysisDoc)
  recommendations : List (String × RecDoc)
deriving Repr, DecidableEq

/-! Store operations, translated from `mongodb_store.py` and the inline user
collection updates in `api.py`. -/

/-- The product key used throughout the store layer: lowercased trimmed name. -/
def productKey (product : String) : String := pyLower (pyStrip product)

/-- The `find_one_and_update({"username": u, "credits": {"$gte": cost}}, {"$inc": {"credits": -cost}}, return_document=True)`
pattern used by `Recommendations.post` and `RunAnalysis.post`: atomic debit-if-sufficient,
returning the post-image credits, or `none` (no change) when the precondition fails. -/
def debitCredits (s : Store) (username : String) (amount : Nat) : Option Nat × Store :=
  match lookupKey s.users username with
  | some c =>
    if amount ≤ c then
      (some (c - amount), { s with users := updateKey s.users username (c - amount) })
    else (none, s)
  | none => (none, s)

/-- The `find_one_and_update({"username": u}, {"$inc": {"credits": amount}})` pattern
used for refunds: unconditional credit, returning the post-image credits. -/
def creditCredits (s : Store) (username : String) (amount : Nat) : Option Nat × Store :=
  match lookupKey s.users username with
  | some c =>
    (some (c + amount), { s with users := updateKey s.users username (c + amount) })
  | none => (none, s)

/-- `MongoDBStore.create_job`: insert a fresh pending job document and return its id. -/
def create_job (s : Store) (user_id : String) (parameters : JobParams) (now : Int) :
    Nat × Store :=
  let job : Job := { user_id := user_id, status := "pending", parameters := parameters,
                     created_at := now }
  (s.next_job_id,
   { s with jobs := s.jobs ++ [(s.next_job_id, job)], next_job_id := s.next_job_id + 1 })

/-- The optional extra fields of `MongoDBStore.update_job_status` (its `**updates`).
`credits_used := some v` means the caller supplied `credits_used=v` (where `v` may
itself be the null value, as in `credits_used=None`). -/
structure JobUpdates where
  started_at : Option Int := none
  completed_at : Option Int := none
  results : Option JobResults := none
  error : Option String := none
  credits_used : Option (Option Nat) := none
deriving Repr, DecidableEq

/-- The `$set` document built by `update_job_status`, applied to a job: the new
status, `started_at` defaulted to `now` on `in_progress` unless supplied,
`completed_at` defaulted to `now` on a terminal status unless supplied, then
the supplied fields. -/
def applyJobUpdates (j : Job) (status : String) (u : JobUpdates) (now : Int) : Job :=
  { j with
    status := status,
    started_at := match u.started_at with
      | some t => some t
      | none => if status = "in_progress" then some now else j.started_at,
    completed_at := match u.completed_at with
      | some t => some t
      | none => if status = "completed" || status = "failed" || status = "cancelled" then
          some now else j.completed_at,
    results := match u.results with
      | some r => some r
      | none => j.results,
    error := match u.error with
      | some e => some e
      | none => j.error,
    credits_used := match u.credits_used with
      | some cu => cu
      | none => j.credits_used }

/-- `MongoDBStore.update_job_status`: set the status and any supplied fields in one
write.  Returns `true` iff the document was modified (`modified_count > 0`); there
is no precondition on the current status.  The retry loop handles only transient
store errors, which the deterministic model does not produce. -/
def update_job_status (s : Store) (job_id : Nat) (status : String) (u : JobUpdates)
    (now : Int) : Bool × Store :=
  match lookupKey s.jobs job_id with
  | none => (false, s)
  | some j =>
    let j2 := applyJobUpdates j status u now
    if j2 = j then (false, s)
    else (true, { s with jobs := updateKey s.jobs job_id j2 })

/-- `MongoDBStore.append_job_log`: push one entry onto the job's `logs` array. -/
def append_job_log (s : Store) (job_id : Nat) (step message : String)
    (details : Option LogDetail) (now : Int) : Bool × Store :=
  match lookupKey s.jobs job_id with
  | none => (false, s)
  | some j =>
    let entry : LogEntry := { step := step, message := message, timestamp := now,
                              details := details }
    let j2 : Job := { j with logs := j.logs ++ [entry] }
    (true, { s with jobs := updateKey s.jobs job_id j2 })

/-- Python truthiness of an optional string (`if user_id:` in the store layer):
`None` and the empty string are falsy. -/
def userScope (user_id : Option String) : Option String :=
  match user_id with
  | some u => if u = "" then none else some u
  | none => none

/-- `MongoDBStore.save_post`: upsert a post by its Reddit id, optionally setting
`product` (the job topic).  Fails only when the post carries no id. -/
def save_post (s : Store) (post : Post) (product : Option String) : Bool × Store :=
  if post.id = "" then (false, s)
  else
    let p2 := match product with
      | some pr => { post with product := some pr }
      | none => post
    (true, { s with posts := upsertKey s.posts post.id p2 })

/-- The `_id` of a pain point: `str(hash(f"{user}_{product}_{topic}"))`, with the
hash modelled as the formatted string itself (stable per `(user, product, topic)`). -/
def painPointId (user_part product topic : String) : String :=
  user_part ++ "_" ++ product ++ "_" ++ topic

/-- `MongoDBStore.save_pain_point`: upsert a pain point keyed by the stable hash
of `(user_id, product, topic)`. -/
def save_pain_point (s : Store) (pp : PainPoint) : Bool × Store :=
  let pid := painPointId pp.user_id pp.product pp.topic
  (true, { s with pain_points := upsertKey s.pain_points pid pp })

/-- The `_id` of a user-scoped analysis document: `f"{user_id}:{product_key}"`. -/
def analysisDocId (user_id : Option String) (product : String) : String :=
  match userScope user_id with
  | some u => u ++ ":" ++ productKey product
  | none => productKey product

/-- `MongoDBStore.save_anthropic_analysis`: upsert the (single) analysis document
for `(user, product)`. -/
def save_anthropic_analysis (s : Store) (product : String) (analysis : String)
    (user_id : Option String) (now : Int) : Bool × Store :=
  let doc : AnalysisDoc := { product := productKey product, analysis := analysis,
                             user_id := userScope user_id, created_at := now }
  (true, { s with analyses := upsertKey s.analyses (analysisDocId user_id product) doc })

/-- The set of valid recommendation types. -/
def validRecType (t : String) : Bool :=
  t == "improve_product" || t == "new_feature" || t == "competing_product"

/-- The `_id` of a recommendations document: `f"{user_id}:{product_key}:{type}"`
(or the unscoped `f"{product_key}:{type}"` when `user_id` is falsy). -/
def recDocId (user_id : Option String) (product_key type_val : String) : String :=
  match userScope user_id with
  | some u => u ++ ":" ++ product_key ++ ":" ++ type_val
  | none => product_key ++ ":" ++ type_val

/-- `MongoDBStore.save_recommendations`: normalize the type (invalid values fall
back to `improve_product`) and upsert one document per `(user, product, type)`. -/
def save_recommendations (s : Store) (product : String) (recommendations : List String)
    (user_id : Option String) (recommendation_type : String) (summary : Option String)
    (timestamp : Option String) (now : Int) : Bool × Store :=
  let pn := productKey product
  let t0 := pyLower (pyStrip (if recommendation_type = "" then "improve_product"
             else recommendation_type))
  let type_val := if validRecType t0 then t0 else "improve_product"
  let doc : RecDoc := { product := pn, recommendations := recommendations,
                        recommendation_type := type_val, user_id := userScope user_id,
                        summary := summary, timestamp := timestamp, created_at := now }
  let rid := recDocId user_id pn type_val
  (true, { s with recommendations := upsertKey s.recommendations rid doc })

/-- `MongoDBStore.delete_anthropic_analysis`: `delete_one` the analysis document
for `(user, product)` (a `_id`-keyed delete; `_id` is unique). -/
def delete_anthropic_analysis (s : Store) (product : String) (user_id : Option String) :
    Store :=
  { s with analyses := removeKey s.analyses (analysisDocId user_id product) }

/-- `MongoDBStore.delete_pain_points_by_product`: `delete_many` on
`{product, [user_id]}`. -/
def delete_pain_points_by_product (s : Store) (product : String) (user_id : Option String) :
    Store :=
  let pn := productKey product
  { s with pain_points := s.pain_points.filter (fun kv =>
      !(kv.snd.product == pn && (match userScope user_id with
        | some u => kv.snd.user_id == u
        | none => true))) }

/-- `MongoDBStore.delete_recommendations_by_product`: `delete_many` on
`{product, [user_id]}` — removes the documents of every recommendation type. -/
def delete_recommendations_by_product (s : Store) (product : String)
    (user_id : Option String) : Store :=
  let pn := productKey product
  { s with recommendations := s.recommendations.filter (fun kv =>
      !(kv.snd.product == pn && (match userScope user_id with
        | some u => kv.snd.user_id == some u
        | none => true))) }

/-! The watchdog (`MongoDBStore.check_stuck_jobs`). -/

/-- Whether an `in_progress` job matches the stuck query
`{"status": "in_progress", "started_at": {"$lt": cutoff}}` (documents without a
`started_at` do not match a `$lt` comparison). -/
def isStuckInProgress (cutoff : Int) (j : Job) : Bool :=
  j.status == "in_progress" && (match j.started_at with
    | some t => decide (t < cutoff)
    | none => false)

/-- Whether a `pending` job matches `{"status": "pending", "created_at": {"$lt": cutoff}}`. -/
def isStuckPending (cutoff : Int) (j : Job) : Bool :=
  j.status == "pending" && decide (j.created_at < cutoff)

/-- The timeout error written for a reaped `in_progress` job:
`f"Job timed out after {int((now - started_at).total_seconds() / 60)} minutes"`. -/
def stuckErrorMessage (now : Int) (timeout_minutes : Nat) (j : Job) : String :=
  match j.started_at with
  | some t => "Job timed out after " ++ pyNatRepr ((now - t).toNat / 60) ++ " minutes"
  | none => "Job timed out after " ++ pyNatRepr timeout_minutes ++
      " minutes (started_at not set)"

/-- One reaping step of the watchdog: mark the found job `failed` via
`update_job_status(job_id, 'failed', error=..., completed_at=now)`, counting
the jobs actually modified. -/
def reapStep (mkError : Job → String) (now : Int) (acc : Nat × Store) (kv : Nat × Job) :
    Nat × Store :=
  let r := update_job_status acc.snd kv.fst "failed"
    { error := some (mkError kv.snd), completed_at := some now } now
  (acc.fst + (if r.fst then 1 else 0), r.snd)

/-- `MongoDBStore.check_stuck_jobs`: find `in_progress` jobs whose `started_at` is
older than `now − timeout_minutes` and mark each `failed` with a duration message,
then find `pending` jobs whose `created_at` is older than the cutoff and mark each
`failed` with the pending-timeout message.  Returns the number of jobs marked. -/
def check_stuck_jobs (s : Store) (timeout_minutes : Nat) (now : Int) : Nat × Store :=
  let cutoff := now - 60 * (timeout_minutes : Int)
  let stuck1 := s.jobs.filter (fun kv => isStuckInProgress cutoff kv.snd)
  let a1 := stuck1.foldl (reapStep (stuckErrorMessage now timeout_minutes) now) (0, s)
  let stuck2 := a1.snd.jobs.filter (fun kv => isStuckPending cutoff kv.snd)
  stuck2.foldl (reapStep (fun _ => "Job timed out (pending too long)") now) a1

/-! The request-side endpoints and background runners of `api.py`. -/

/-- `api.calculate_insight_cost`: the credit cost of a scrape by limit and
time filter. -/
def calculate_insight_cost (limit : Int) (time_filter : String) : Nat :=
  if limit ≤ 10 then 1
  else
    let time_mult : Nat :=
      if time_filter = "hour" then 1
      else if time_filter = "day" then 1
      else if time_filter = "week" then 1
      else if time_filter = "month" then 2
      else if time_filter = "year" then 3
      else if time_filter = "all" then 4
      else 1
    let limit_tier : Nat :=
      if limit ≤ 50 then 1 else if limit ≤ 100 then 2 else if limit ≤ 200 then 3 else 4
    limit_tier * (time_mult + 1)

/-- The `(x or "improve_product").strip().lower()` normalization applied to a
requested recommendation type. -/
def normalizeRecType (rtype : Option String) : String :=
  pyLower (pyStrip (match rtype with
   | some r => if r = "" then "improve_product" else r
   | none => "improve_product"))

/-- `Recommendations.get`: fetch the current user's recommendation document for a
product and type.  Falls back to the legacy `(user, product)` id only for
`improve_product`, and never returns a document stored under a different type. -/
def recommendations_get (s : Store) (username : String) (product : Option String)
    (rtype : Option String) : List RecDoc :=
  match product with
  | none => []
  | some p =>
    if p = "" then []
    else
      let rt0 := normalizeRecType rtype
      let rt := if validRecType rt0 then rt0 else "improve_product"
      let product_key := productKey p
      let doc_id_typed := if username = "" then product_key ++ ":" ++ rt
        else username ++ ":" ++ product_key ++ ":" ++ rt
      let doc0 := lookupKey s.recommendations doc_id_typed
      let doc1 := match doc0 with
        | some d => some d
        | none =>
          if rt = "improve_product" then
            lookupKey s.recommendations
              (if username = "" then product_key else username ++ ":" ++ product_key)
          else none
      match doc1 with
      | none => []
      | some d =>
        let stored := pyLower (pyStrip (if d.recommendation_type = "" then "improve_product"
                       else d.recommendation_type))
        if stored = rt then [d] else []

/-- Outcome of `Recommendations.post` (admission). -/
inductive RecsStartResult : Type where
  | productsRequired
  | productRequired
  | invalidType
  | contextTooLong
  | noPainPoints
  | insufficientCredits (required available : Nat)
  | success (job_id : Nat) (product : String) (recommendation_type : String) (required : Nat)
deriving Repr, DecidableEq

/-- `Recommendations.post`: validate, check pain points exist, decide first-time
vs regenerate cost from the existing `(user, product, type)` document, debit
atomically, then create the pending job. -/
def recommendationsStart (s : Store) (username : String) (products : List String)
    (recommendation_type : Option String) (context : Option String) (regenerate : Bool)
    (now : Int) : RecsStartResult × Store :=
  if products.isEmpty then (.productsRequired, s)
  else
    let product := pyStrip (products.headD "")
    if product = "" then (.productRequired, s)
    else
      let rt := normalizeRecType recommendation_type
      if !validRecType rt then (.invalidType, s)
      else if (match context with
               | some c => decide (c.length > 500)
               | none => false) then (.contextTooLong, s)
      else
        let ctx : Option String := match context with
          | some c => if c = "" then none else some (pyTake (pyStrip c) 500)
          | none => none
        let ctxParam : Option String := match ctx with
          | some c => if c = "" then none else some c
          | none => none
        let product_key := productKey product
        let pps := s.pain_points.filter (fun kv =>
          kv.snd.product == product_key && kv.snd.user_id == username)
        if pps.isEmpty then (.noPainPoints, s)
        else
          let doc_id_typed := username ++ ":" ++ product_key ++ ":" ++ rt
          let existing := lookupKey s.recommendations doc_id_typed
          let is_regenerate := existing.isSome && regenerate
          let required_credits := if is_regenerate then 1 else 2
          let available := match lookupKey s.users username with
            | some c => c
            | none => 0
          if available < required_credits then
            (.insufficientCredits required_credits available, s)
          else
            match debitCredits s username required_credits with
            | (none, s1) => (.insufficientCredits required_credits available, s1)
            | (some _, s1) =>
              let params : JobParams := .recommendations
                { product := product, recommendation_type := rt, regenerate := regenerate,
                  context := ctxParam }
              let cj := create_job s1 username params now
              (.success cj.fst product rt required_credits, cj.snd)

/-- Outcome of an external `generate_recommendations` call: either the
structured error of the result dict, or its recommendations, summary and
timestamp. -/
inductive RecOutcome : Type where
  | err (e : String)
  | ok (recommendations : List String) (summary : String) (timestamp : Option String)
deriving Repr, DecidableEq

/-- `background_recommendations` (the worker body launched by
`Recommendations.post`): re-read type/product/context from the job document,
mark the job in progress, log, and on the analyzer's outcome either finalize
failure with `credits_used` and refund the debited credits, or persist the
recommendations and finalize success with `credits_used` and no refund.
`pain_points` is the admission-time query result captured by the closure. -/
def background_recommendations (s : Store) (job_id : Nat) (username product : String)
    (context : Option String) (pain_points : List PainPoint) (required_credits : Nat)
    (outcome : RecOutcome) (now : Int) : Store :=
  let params : Option RecsParams := match lookupKey s.jobs job_id with
    | some j => match j.parameters with
      | .recommendations p => some p
      | _ => none
    | none => none
  let jrt := normalizeRecType (params.map (fun p => p.recommendation_type))
  let job_recommendation_type := if validRecType jrt then jrt else "improve_product"
  let rawProd := match params with
    | some p => if p.product = "" then product else p.product
    | none => product
  let jp0 := pyStrip rawProd
  let job_product := if jp0 = "" then product else jp0
  let _job_context : Option String := match params with
    | some p => match p.context with
      | some c => if c = "" then context else some c
      | none => context
    | none => context
  let s1 := (update_job_status s job_id "in_progress" {} now).snd
  let s2 := (append_job_log s1 job_id "load_pain_points"
    ("Loaded " ++ pyNatRepr pain_points.length ++ " pain points for " ++ job_product)
    (some (.num pain_points.length)) now).snd
  let s3 := (append_job_log s2 job_id "generate"
    ("Generating " ++ job_recommendation_type ++ " recommendations with Claude") none now).snd
  match outcome with
  | .err e =>
    let s4 := (append_job_log s3 job_id "failed" e none now).snd
    let s5 := (update_job_status s4 job_id "failed"
      { error := some e, credits_used := some (some required_credits) } now).snd
    (creditCredits s5 username required_credits).snd
  | .ok recs summary ts =>
    let sr := save_recommendations s3 job_product recs (some username)
      job_recommendation_type (some summary) ts now
    if !sr.fst then
      let s5 := (append_job_log sr.snd job_id "failed" "Failed to save recommendations"
        none now).snd
      let s6 := (update_job_status s5 job_id "failed"
        { error := some "Failed to save recommendations",
          credits_used := some (some required_credits) } now).snd
      (creditCredits s6 username required_credits).snd
    else
      let results : JobResults := .recommendations job_product job_recommendation_type
        recs.length
      let s5 := (append_job_log sr.snd job_id "completed"
        ("Saved " ++ pyNatRepr recs.length ++ " recommendations (type=" ++
          job_recommendation_type ++ ")") (some (.results results)) now).snd
      (update_job_status s5 job_id "completed"
        { results := some results, credits_used := some (some required_credits) } now).snd

/-- Outcome of `RunAnalysis.post` (admission). -/
inductive AnalysisStartResult : Type where
  | productRequired
  | noPosts
  | insufficientCredits (available : Nat)
  | success (job_id : Nat) (product : String)
deriving Repr, DecidableEq

/-- The `min(max(1, max_posts), 1000)` clamp of `RunAnalysis.post`. -/
def clampMaxPosts (mp : Int) : Int := min (max 1 mp) 1000

/-- `RunAnalysis.post`: require a non-empty product with at least one scraped
post; on `regenerate`, debit 1 credit atomically and clear the prior analysis,
pain points and recommendations for `(user, product)`; then create the pending
job (a non-regenerate run debits nothing). -/
def runAnalysisStart (s : Store) (username product_in : String) (max_posts : Int)
    (skip_recommendations regenerate : Bool) (now : Int) : AnalysisStartResult × Store :=
  let product := pyStrip product_in
  if product = "" then (.productRequired, s)
  else
    let mp := clampMaxPosts max_posts
    let posts_count := (s.posts.filter (fun kv => kv.snd.product == some product)).length
    if posts_count = 0 then (.noPosts, s)
    else
      let params : JobParams := .analysis
        { product := product, max_posts := mp,
          skip_recommendations := skip_recommendations, regenerate := regenerate }
      if regenerate then
        let available := match lookupKey s.users username with
          | some c => c
          | none => 0
        if available < 1 then (.insufficientCredits available, s)
        else
          match debitCredits s username 1 with
          | (none, s1) => (.insufficientCredits available, s1)
          | (some _, s1) =>
            let s2 := delete_anthropic_analysis s1 product (some username)
            let s3 := delete_pain_points_by_product s2 product (some username)
            let s4 := delete_recommendations_by_product s3 product (some username)
            let cj := create_job s4 username params now
            (.success cj.fst product, cj.snd)
      else
        let cj := create_job s username params now
        (.success cj.fst product, cj.snd)

/-- One pain point as returned inside the analyzer's `common_pain_points`. -/
structure PainPointInput where
  name : String
  description : String
  severity : String
  potential_solutions : String
  related_keywords : List String
  engagement_summary : String
deriving Repr, DecidableEq

/-- The pain-point document built by `background_analysis` from one analyzer
pain point (with the `or`-defaults of the source). -/
def painPointOfInput (username product_norm : String) (pp : PainPointInput) (now : Int) :
    PainPoint :=
  { product := product_norm, user_id := username,
    topic := if pp.name = "" then "Unnamed" else pp.name,
    description := pp.description,
    severity := if pp.severity = "" then "medium" else pp.severity,
    potential_solutions := pp.potential_solutions,
    related_keywords := pp.related_keywords,
    engagement_summary := pp.engagement_summary,
    created_at := now }

/-- Outcome of an external `analyze_common_pain_points` call: the structured
error of the result dict, or the analysis payload, its pain points, and the
outcome of the follow-on `generate_recommendations` call. -/
inductive AnalysisOutcome : Type where
  | err (e : String)
  | ok (analysisPayload : String) (pain_points : List PainPointInput) (recs : RecOutcome)
deriving Repr, DecidableEq

/-- `background_analysis` (the worker body launched by `RunAnalysis.post`):
mark in progress, log, and on the analyzer's outcome either finalize failure
(`credits_used = 1` and a 1-credit refund only when `regenerate`), or persist
the analysis document and pain points, best-effort save the improve-product
recommendations, and finalize success with no refund. -/
def background_analysis (s : Store) (job_id : Nat) (username product : String)
    (max_posts : Int) (skip_recommendations regenerate : Bool)
    (outcome : AnalysisOutcome) (job_start now : Int) : Store :=
  let s1 := (update_job_status s job_id "in_progress" {} now).snd
  let s2 := (append_job_log s1 job_id "load_posts"
    ("Loading posts for " ++ product ++ " (max " ++ pyIntRepr max_posts ++ ")")
    (some (.num max_posts)) now).snd
  let loaded := ((s2.posts.filter (fun kv => kv.snd.product == some product)).map
    Prod.snd).take max_posts.toNat
  let s3 := (append_job_log s2 job_id "analyze_pain_points"
    ("Analyzing " ++ pyNatRepr loaded.length ++ " posts with Claude") none now).snd
  match outcome with
  | .err e =>
    let s4 := (append_job_log s3 job_id "failed" e none now).snd
    let cu : Option Nat := if regenerate then some 1 else none
    let s5 := (update_job_status s4 job_id "failed"
      { error := some e, credits_used := some cu } now).snd
    if regenerate then (creditCredits s5 username 1).snd else s5
  | .ok payload pps recs_outcome =>
    let s4 := (append_job_log s3 job_id "save_analysis"
      ("Saved analysis (" ++ pyNatRepr pps.length ++ " pain points)") none now).snd
    let s5 := (save_anthropic_analysis s4 product payload (some username) now).snd
    let s6 := pps.foldl (fun st pp =>
      (save_pain_point st (painPointOfInput username (productKey product) pp now)).snd) s5
    let recPhase : Nat × Store :=
      if skip_recommendations then
        let r := append_job_log s6 job_id "recommendations"
          "Skipped (skip_recommendations=true)" none now
        (0, r.snd)
      else match recs_outcome with
        | .err _ =>
          let r := append_job_log s6 job_id "recommendations"
            "Recommendations skipped (Claude error)" none now
          (0, r.snd)
        | .ok recs _ _ =>
          let sr := save_recommendations s6 product recs (some username)
            "improve_product" none none now
          let n := if sr.fst then recs.length else 0
          let r := append_job_log sr.snd job_id "recommendations"
            ("Saved " ++ pyNatRepr n ++ " recommendations") (some (.num n)) now
          (n, r.snd)
    let recommendations_count := recPhase.fst
    let s7 := recPhase.snd
    let duration_minutes : Int := ((now - job_start).toNat / 60 : Nat)
    let results : JobResults := .analysis pps.length recommendations_count product
      duration_minutes
    let s8 := (append_job_log s7 job_id "completed"
      ("Analysis completed. " ++ pyNatRepr pps.length ++ " pain points, " ++
        pyNatRepr recommendations_count ++ " recommendations.") (some (.results results)) now).snd
    let cu : Option Nat := if regenerate then some 1 else none
    (update_job_status s8 job_id "completed"
      { results := some results, credits_used := some cu } now).snd

/-- The `subreddits` request field: a comma-separated string or a list. -/
inductive SubredditsParam : Type where
  | csv (s : String)
  | listed (l : List String)
deriving Repr, DecidableEq

/-- Outcome of the `suggest_subreddits` call in `ScrapePosts.post`:
unconfigured client, API error (including a raised exception), or a suggestion
dict with subreddits and optional search queries. -/
inductive ClaudeOutcome : Type where
  | unconfigured
  | apiError (e : String)
  | ok (subreddits : List String) (search_queries : Option (List String))
deriving Repr, DecidableEq

/-- The generic fallback subreddits of `ScrapePosts.post`. -/
def defaultSubreddits : List String :=
  ["technology", "software", "productivity", "business", "entrepreneur"]

/-- The csv branch: `[s.strip() for s in user_subreddits.split(',') if s.strip()]`. -/
def parseCsvSubreddits (c : String) : List String :=
  ((pySplitComma c).map pyStrip).filter (fun t => t != "")

/-- Python truthiness of the `subreddits` field (`if user_subreddits:`). -/
def subParamTruthy : Option SubredditsParam → Bool
  | some (.csv c) => c != ""
  | some (.listed l) => !l.isEmpty
  | none => false

def validTimeFilters : List String := ["hour", "day", "week", "month", "year", "all"]

/-- Outcome of `ScrapePosts.post` (admission). -/
inductive ScrapeStartResult : Type where
  | topicRequired
  | invalidTimeFilter
  | credentialsMissing (job_id : Nat)
  | clientInitFailed (job_id : Nat)
  | success (job_id : Nat) (topic : String) (subreddits : List String)
deriving Repr, DecidableEq

/-- `ScrapePosts.post`: validate topic and time filter (the `limit` field is
read with default 100 and not range-checked), resolve the subreddit set from the
request or the Claude suggestion (with the generic fallback), create the pending
job, then check Reddit credentials (marking the already-created job failed when
they are absent) and launch the background scrape.  No credits are read,
checked, or debited anywhere on this path. -/
def scrapeStart (s : Store) (username topic_in : String) (limit : Int)
    (time_filter : String) (is_custom : Bool) (user_subreddits : Option SubredditsParam)
    (claude : ClaudeOutcome) (creds_ok client_ok : Bool) (now : Int) :
    ScrapeStartResult × Store :=
  let topic := pyStrip topic_in
  if topic = "" then (.topicRequired, s)
  else if !(validTimeFilters.contains time_filter) then (.invalidTimeFilter, s)
  else
    let resolved : List String × Option (List String × Option (List String)) :=
      if subParamTruthy user_subreddits then
        (match user_subreddits with
         | some (.csv c) => parseCsvSubreddits c
         | some (.listed l) => (l.filter (fun t => t != "")).map pyStrip
         | none => [], none)
      else
        match claude with
        | .unconfigured => (defaultSubreddits, none)
        | .apiError _ => (defaultSubreddits, none)
        | .ok subs queries =>
          if subs.isEmpty then (defaultSubreddits, some (subs, queries))
          else (subs, some (subs, queries))
    let subreddits_to_use := resolved.fst
    let search_queries : Option (List String) := match resolved.snd with
      | some (_, some q) => some q
      | _ => none
    let params : JobParams := .scrape
      { topic := topic, limit := limit, time_filter := time_filter,
        is_custom := is_custom, subreddits := subreddits_to_use,
        claude_search_queries := search_queries }
    let cj := create_job s username params now
    if !creds_ok then
      (.credentialsMissing cj.fst, (update_job_status cj.snd cj.fst "failed"
        { error := some "Reddit API credentials not configured" } now).snd)
    else if !client_ok then
      (.clientInitFailed cj.fst, (update_job_status cj.snd cj.fst "failed"
        { error := some "Failed to initialize Reddit client" } now).snd)
    else
      (.success cj.fst topic subreddits_to_use, cj.snd)

/-- The terminal-success path of `background_scrape` (the worker body launched
by `ScrapePosts.post`) with the per-query search calls folded into their
accumulated result `found_posts`: mark in progress, log the pipeline steps,
save every found post under `product = topic`, then finalize success.  The
completed write patches only `results` — `credits_used` is never supplied. -/
def background_scrape_success (s : Store) (job_id : Nat) (topic : String) (limit : Int)
    (subreddits_to_use : List String) (search_queries : Option (List String))
    (found_posts : List Post) (job_start now : Int) : Store :=
  let s1 := (update_job_status s job_id "in_progress" {} now).snd
  let s2 := (append_job_log s1 job_id "subreddits" "Subreddits to search"
    (some (.items subreddits_to_use)) now).snd
  let s3 := (match search_queries with
    | some q => append_job_log s2 job_id "search_queries" "Search queries"
        (some (.items q)) now
    | none => append_job_log s2 job_id "search_queries"
        "Using default product mention queries" none now).snd
  let s4 := (append_job_log s3 job_id "find_posts"
    ("Started Reddit search (pulling up to " ++ pyIntRepr limit ++ " posts)")
    (some (.num limit)) now).snd
  let s5 := (append_job_log s4 job_id "find_posts"
    ("Done. Found " ++ pyNatRepr found_posts.length ++ " posts.")
    (some (.num found_posts.length)) now).snd
  let saveFold := found_posts.foldl (fun (acc : Nat × Store) p =>
    let r := save_post acc.snd p (some topic)
    (acc.fst + (if r.fst then 1 else 0), r.snd)) (0, s5)
  let posts_saved := saveFold.fst
  let s6 := saveFold.snd
  let s7 := (append_job_log s6 job_id "save_posts"
    ("Saved " ++ pyNatRepr posts_saved ++ " posts to database.")
    (some (.num posts_saved)) now).snd
  let duration_minutes : Int := ((now - job_start).toNat / 60 : Nat)
  let results : JobResults := .scrape posts_saved found_posts.length subreddits_to_use
    topic duration_minutes
  let s8 := (update_job_status s7 job_id "completed" { results := some results } now).snd
  (append_job_log s8 job_id "completed"
    ("Job completed. " ++ pyNatRepr posts_saved ++ " posts saved in " ++
      pyIntRepr duration_minutes ++ " minutes.") (some (.results results)) now).snd

/-- Outcome of `CancelJob.post`. -/
inductive CancelResult : Type where
  | notFound
  | forbidden
  | notCancellable (status : String)
  | updateFailed
  | userNotFound
  | success (new_credits : Option Nat)
deriving Repr, DecidableEq

/-- `CancelJob.post`: verify existence, ownership and a cancellable state
(`pending` or `in_progress`), transition the job to `cancelled`, then credit
the owner with exactly 1 (fixed refund, irrespective of job type or original
cost). -/
def cancel_job (s : Store) (username : String) (job_id : Nat) (now : Int) :
    CancelResult × Store :=
  match lookupKey s.jobs job_id with
  | none => (.notFound, s)
  | some job =>
    if job.user_id ≠ username then (.forbidden, s)
    else if !(job.status == "pending" || job.status == "in_progress") then
      (.notCancellable job.status, s)
    else
      let r := update_job_status s job_id "cancelled"
        { completed_at := some now, error := some "Job cancelled by user" } now
      if !r.fst then (.updateFailed, r.snd)
      else
        match lookupKey r.snd.users username with
        | none => (.userNotFound, r.snd)
        | some _ =>
          let r2 := creditCredits r.snd username 1
          (.success r2.fst, r2.snd)

/-! Basic facts about the store operations, used by the claim proofs. -/

theorem applyJobUpdates_status (j : Job) (st : String) (u : JobUpdates) (now : Int) :
    (applyJobUpdates j st u now).status = st := rfl

theorem applyJobUpdates_credits_used (j : Job) (st : String) (u : JobUpdates) (now : Int)
    (cu : Option Nat) (h : u.credits_used = some cu) :
    (applyJobUpdates j st u now).credits_used = cu := by
  simp [applyJobUpdates, h]

theorem applyJobUpdates_error (j : Job) (st : String) (u : JobUpdates) (now : Int)
    (e : String) (h : u.error = some e) :
    (applyJobUpdates j st u now).error = some e := by
  simp [applyJobUpdates, h]

theorem applyJobUpdates_completed_at (j : Job) (st : String) (u : JobUpdates) (now : Int)
    (t : Int) (h : u.completed_at = some t) :
    (applyJobUpdates j st u now).completed_at = some t := by
  simp [applyJobUpdates, h]

theorem applyJobUpdates_ne_of_status (j : Job) (st : String) (u : JobUpdates) (now : Int)
    (h : j.status ≠ st) : applyJobUpdates j st u now ≠ j := by
  intro he
  exact h (by rw [← he, applyJobUpdates_status])

theorem update_job_status_users (s : Store) (jid : Nat) (st : String) (u : JobUpdates)
    (now : Int) : (update_job_status s jid st u now).snd.users = s.users := by
  unfold update_job_status
  cases lookupKey s.jobs jid with
  | none => rfl
  | some j =>
    dsimp only []
    split <;> rfl

theorem update_job_status_posts (s : Store) (jid : Nat) (st : String) (u : JobUpdates)
    (now : Int) : (update_job_status s jid st u now).snd.posts = s.posts := by
  unfold update_job_status
  cases lookupKey s.jobs jid with
  | none => rfl
  | some j =>
    dsimp only []
    split <;> rfl

theorem update_job_status_map_fst (s : Store) (jid : Nat) (st : String) (u : JobUpdates)
    (now : Int) :
    (update_job_status s jid st u now).snd.jobs.map Prod.fst = s.jobs.map Prod.fst := by
  unfold update_job_status
  cases lookupKey s.jobs jid with
  | none => rfl
  | some j =>
    dsimp only []
    split
    · rfl
    · exact map_fst_updateKey s.jobs jid _

theorem update_job_status_lookup_self (s : Store) (jid : Nat) (st : String) (u : JobUpdates)
    (now : Int) (j : Job) (h : lookupKey s.jobs jid = some j) :
    lookupKey (update_job_status s jid st u now).snd.jobs jid
      = some (applyJobUpdates j st u now) := by
  unfold update_job_status
  rw [h]
  dsimp only []
  split
  · next heq => rw [heq]; exact h
  · rw [lookupKey_updateKey_self, h]; rfl

theorem update_job_status_lookup_ne (s : Store) (jid k : Nat) (st : String) (u : JobUpdates)
    (now : Int) (h : k ≠ jid) :
    lookupKey (update_job_status s jid st u now).snd.jobs k = lookupKey s.jobs k := by
  unfold update_job_status
  cases lookupKey s.jobs jid with
  | none => rfl
  | some j =>
    dsimp only []
    split
    · rfl
    · exact lookupKey_updateKey_ne s.jobs jid k _ h

theorem update_job_status_eq_mod (s : Store) (jid : Nat) (st : String) (u : JobUpdates)
    (now : Int) (j : Job) (h : lookupKey s.jobs jid = some j)
    (hne : applyJobUpdates j st u now ≠ j) :
    update_job_status s jid st u now
      = (true, { s with jobs := updateKey s.jobs jid (applyJobUpdates j st u now) }) := by
  unfold update_job_status
  rw [h]
  dsimp only []
  rw [if_neg hne]

theorem append_job_log_users (s : Store) (jid : Nat) (step msg : String)
    (d : Option LogDetail) (now : Int) :
    (append_job_log s jid step msg d now).snd.users = s.users := by
  unfold append_job_log
  cases lookupKey s.jobs jid with
  | none => rfl
  | some j => rfl

theorem append_job_log_posts (s : Store) (jid : Nat) (step msg : String)
    (d : Option LogDetail) (now : Int) :
    (append_job_log s jid step msg d now).snd.posts = s.posts := by
  unfold append_job_log
  cases lookupKey s.jobs jid with
  | none => rfl
  | some j => rfl

theorem append_job_log_lookup_self (s : Store) (jid : Nat) (step msg : String)
    (d : Option LogDetail) (now : Int) (j : Job) (h : lookupKey s.jobs jid = some j) :
    lookupKey (append_job_log s jid step msg d now).snd.jobs jid
      = some { j with logs := j.logs ++
          [{ step := step, message := msg, timestamp := now, details := d }] } := by
  unfold append_job_log
  rw [h]
  dsimp only []
  rw [lookupKey_updateKey_self, h]
  rfl

theorem creditCredits_jobs (s : Store) (u : String) (a : Nat) :
    (creditCredits s u a).snd.jobs = s.jobs := by
  unfold creditCredits
  cases lookupKey s.users u with
  | none => rfl
  | some c => rfl

theorem creditCredits_lookup_self (s : Store) (u : String) (a c : Nat)
    (h : lookupKey s.users u = some c) :
    lookupKey (creditCredits s u a).snd.users u = some (c + a) := by
  unfold creditCredits
  rw [h]
  dsimp only []
  rw [lookupKey_updateKey_self, h]
  rfl

theorem debitCredits_eq (s : Store) (u : String) (a c : Nat)
    (h : lookupKey s.users u = some c) (hle : a ≤ c) :
    debitCredits s u a = (some (c - a), { s with users := updateKey s.users u (c - a) }) := by
  unfold debitCredits
  rw [h]
  dsimp only []
  rw [if_pos hle]

theorem save_anthropic_analysis_users (s : Store) (p a : String) (uid : Option String)
    (now : Int) : (save_anthropic_analysis s p a uid now).snd.users = s.users := rfl

theorem save_anthropic_analysis_jobs (s : Store) (p a : String) (uid : Option String)
    (now : Int) : (save_anthropic_analysis s p a uid now).snd.jobs = s.jobs := rfl

theorem save_recommendations_users (s : Store) (p : String) (recs : List String)
    (uid : Option String) (t : String) (sum ts : Option String) (now : Int) :
    (save_recommendations s p recs uid t sum ts now).snd.users = s.users := rfl

theorem save_recommendations_jobs (s : Store) (p : String) (recs : List String)
    (uid : Option String) (t : String) (sum ts : Option String) (now : Int) :
    (save_recommendations s p recs uid t sum ts now).snd.jobs = s.jobs := rfl

theorem save_pain_point_users (s : Store) (pp : PainPoint) :
    (save_pain_point s pp).snd.users = s.users := rfl

theorem save_pain_point_jobs (s : Store) (pp : PainPoint) :
    (save_pain_point s pp).snd.jobs = s.jobs := rfl

theorem foldl_save_pain_point_users (un pn : String) (now : Int) (L : List PainPointInput) :
    ∀ st : Store,
      (L.foldl (fun st pp => (save_pain_point st (painPointOfInput un pn pp now)).snd) st).users
        = st.users := by
  induction L with
  | nil => intro st; rfl
  | cons pp rest ih =>
    intro st
    simpa using ih (save_pain_point st (painPointOfInput un pn pp now)).snd

theorem foldl_save_pain_point_jobs (un pn : String) (now : Int) (L : List PainPointInput) :
    ∀ st : Store,
      (L.foldl (fun st pp => (save_pain_point st (painPointOfInput un pn pp now)).snd) st).jobs
        = st.jobs := by
  induction L with
  | nil => intro st; rfl
  | cons pp rest ih =>
    intro st
    simpa using ih (save_pain_point st (painPointOfInput un pn pp now)).snd

/-! Facts about the watchdog's reaping folds. -/

theorem reapStep_users (mk : Job → String) (now : Int) (acc : Nat × Store) (kv : Nat × Job) :
    (reapStep mk now acc kv).snd.users = acc.snd.users := by
  unfold reapStep
  exact update_job_status_users _ _ _ _ _

theorem foldl_reapStep_lookup_ne (mk : Job → String) (now : Int) (L : List (Nat × Job)) :
    ∀ (acc : Nat × Store) (jid : Nat), (∀ kv ∈ L, kv.fst ≠ jid) →
      lookupKey ((L.foldl (reapStep mk now) acc).snd).jobs jid
        = lookupKey acc.snd.jobs jid := by
  induction L with
  | nil => intro acc jid _; rfl
  | cons kv rest ih =>
    intro acc jid h
    rw [List.foldl_cons, ih _ jid (fun x hx => h x (List.mem_cons_of_mem _ hx))]
    unfold reapStep
    exact update_job_status_lookup_ne _ _ _ _ _ _
      (fun he => h kv (List.mem_cons_self _ _) he.symm)

theorem foldl_reapStep_map_fst (mk : Job → String) (now : Int) (L : List (Nat × Job)) :
    ∀ acc : Nat × Store,
      ((L.foldl (reapStep mk now) acc).snd).jobs.map Prod.fst
        = acc.snd.jobs.map Prod.fst := by
  induction L with
  | nil => intro acc; rfl
  | cons kv rest ih =>
    intro acc
    rw [List.foldl_cons, ih]
    unfold reapStep
    exact update_job_status_map_fst _ _ _ _ _

theorem foldl_reapStep_users (mk : Job → String) (now : Int) (L : List (Nat × Job)) :
    ∀ acc : Nat × Store,
      ((L.foldl (reapStep mk now) acc).snd).users = acc.snd.users := by
  induction L with
  | nil => intro acc; rfl
  | cons kv rest ih =>
    intro acc
    rw [List.foldl_cons, ih]
    exact reapStep_users _ _ _ _

theorem foldl_reapStep_hit (mk : Job → String) (now : Int) (L1 L2 : List (Nat × Job))
    (jid : Nat) (jv j : Job) (acc : Nat × Store)
    (hacc : lookupKey acc.snd.jobs jid = some j)
    (h1 : ∀ kv ∈ L1, kv.fst ≠ jid) (h2 : ∀ kv ∈ L2, kv.fst ≠ jid) :
    lookupKey (((L1 ++ (jid, jv) :: L2).foldl (reapStep mk now) acc).snd).jobs jid
      = some (applyJobUpdates j "failed"
          { error := some (mk jv), completed_at := some now } now) := by
  rw [List.foldl_append, List.foldl_cons, foldl_reapStep_lookup_ne mk now L2 _ jid h2]
  have hacc1 : lookupKey ((L1.foldl (reapStep mk now) acc).snd).jobs jid = some j := by
    rw [foldl_reapStep_lookup_ne mk now L1 acc jid h1]
    exact hacc
  unfold reapStep
  exact update_job_status_lookup_self _ _ _ _ _ _ hacc1

theorem exists_split_of_mem_nodup {α β : Type} [DecidableEq α] (l : List (α × β)) (k : α)
    (v : β) (hm : (k, v) ∈ l) (hn : (l.map Prod.fst).Nodup) :
    ∃ L1 L2, l = L1 ++ (k, v) :: L2 ∧ (∀ kv ∈ L1, kv.fst ≠ k) ∧ (∀ kv ∈ L2, kv.fst ≠ k) := by
  obtain ⟨L1, L2, rfl⟩ := List.append_of_mem hm
  rw [List.map_append, List.map_cons, List.nodup_append] at hn
  obtain ⟨hn1, hn2, hdisj⟩ := hn
  rw [List.nodup_cons] at hn2
  refine ⟨L1, L2, rfl, ?_, ?_⟩
  · intro kv hkv he
    exact hdisj (List.mem_map.mpr ⟨kv, hkv, he⟩) (List.mem_cons_self _ _)
  · intro kv hkv he
    exact hn2.1 (he ▸ List.mem_map.mpr ⟨kv, hkv, rfl⟩)

/-! Concrete stores used to evaluate the model on the spec's literal scenarios. -/

/-- A pending analysis job owned by alice. -/
def sampleAnalysisJob : Job :=
  { user_id := "alice",
    status := "pending",
    parameters := .analysis
      { product := "Jira", max_posts := 500, skip_recommendations := false,
        regenerate := false },
    created_at := 0 }

/-- One user alice with 10 credits and one pending job. -/
def sampleStore : Store :=
  { users := [("alice", 10)], jobs := [(0, sampleAnalysisJob)], next_job_id := 1,
    posts := [], pain_points := [], analyses := [], recommendations := [] }

/-- `sampleStore` after alice cancels job 0 at time 100. -/
def cancelledStore : Store := (cancel_job sampleStore "alice" 0 100).snd

/-- The job document of job 0 in `cancelledStore`. -/
def cancelledJob : Job :=
  { sampleAnalysisJob with
    status := "cancelled",
    completed_at := some 100,
    error := some "Job cancelled by user" }

/-- C1 counterexample: after job 0 is cancelled, a runner's terminal-success
write `update_job_status(job, 'completed', ...)` is applied (returns `true` and
overwrites the `cancelled` state with `completed`), not rejected. -/
theorem C1_counterexample :
    (lookupKey cancelledStore.jobs 0).map Job.status = some "cancelled"
    ∧ (update_job_status cancelledStore 0 "completed"
        { results := some (.analysis 2 1 "Jira" 0), credits_used := some (some 1) } 200).fst
        = true
    ∧ (lookupKey (update_job_status cancelledStore 0 "completed"
        { results := some (.analysis 2 1 "Jira" 0), credits_used := some (some 1) }
        200).snd.jobs 0).map Job.status = some "completed" := by
  refine ⟨rfl, rfl, rfl⟩

/-- C1 (amended): `update_job_status` enforces no state machine.  For any
existing job — terminal state included — a write of a different status is
applied and reported as modified; in particular a `completed` write after
`cancelled` overwrites the cancelled state.  Only `CancelJob.post` itself
guards on the current state. -/
theorem C1_amended (s : Store) (jid : Nat) (st : String) (u : JobUpdates) (now : Int)
    (j : Job) (hj : lookupKey s.jobs jid = some j) (hne : j.status ≠ st) :
    (update_job_status s jid st u now).fst = true
    ∧ (lookupKey (update_job_status s jid st u now).snd.jobs jid).map Job.status
        = some st := by
  have hne' := applyJobUpdates_ne_of_status j st u now hne
  rw [update_job_status_eq_mod s jid st u now j hj hne']
  refine ⟨rfl, ?_⟩
  dsimp only []
  rw [lookupKey_updateKey_self, hj]
  rfl

/-- C1 amended witness: the completed-after-cancelled write on the concrete
cancelled store. -/
theorem C1_amended_witness :
    (update_job_status cancelledStore 0 "completed" {} 200).fst = true
    ∧ (lookupKey (update_job_status cancelledStore 0 "completed" {} 200).snd.jobs 0).map
        Job.status = some "completed" :=
  C1_amended cancelledStore 0 "completed" {} 200 cancelledJob (by decide) (by decide)

/-- One user alice with 10 credits and no jobs or posts. -/
def aliceStore : Store :=
  { users := [("alice", 10)], jobs := [], next_job_id := 0, posts := [],
    pain_points := [], analyses := [], recommendations := [] }

/-- The three posts returned by the scraper stub of scenario S1. -/
def stubPosts : List Post :=
  [ { id := "p1", title := "t1", content := "c1", score := 1, num_comments := 0,
      created_at := 0 },
    { id := "p2", title := "t2", content := "c2", score := 2, num_comments := 0,
      created_at := 0 },
    { id := "p3", title := "t3", content := "c3", score := 3, num_comments := 0,
      created_at := 0 } ]

/-- `aliceStore` after `scrape.start{topic: "Notion", limit: 10, time_filter: "day"}`
(analyzer stub suggests `["productivity"]`). -/
def s1Scrape : Store :=
  (scrapeStart aliceStore "alice" "Notion" 10 "day" false none
    (.ok ["productivity"] none) true true 0).snd

/-- `s1Scrape` after the background scrape completes with the 3 stub posts. -/
def s2Scrape : Store :=
  background_scrape_success s1Scrape 0 "Notion" 10 ["productivity"] none stubPosts 0 60

/-- C2 evaluation at scenario S1: the accepted scrape for alice (10 credits,
cost `calculate_insight_cost 10 "day" = 1`) never debits her credits — the
admission path performs no credit operation, and after the runner completes the
job's `credits_used` is still null and alice still has 10 credits (the claim
and the repository's own endpoint tests expect 9 and `credits_used = 1`). -/
theorem C2_scrape_never_debits :
    calculate_insight_cost 10 "day" = 1
    ∧ (scrapeStart aliceStore "alice" "Notion" 10 "day" false none
        (.ok ["productivity"] none) true true 0).fst
        = .success 0 "Notion" ["productivity"]
    ∧ lookupKey s1Scrape.users "alice" = some 10
    ∧ lookupKey s2Scrape.users "alice" = some 10
    ∧ (lookupKey s2Scrape.jobs 0).map Job.status = some "completed"
    ∧ (lookupKey s2Scrape.jobs 0).map Job.credits_used = some none
    ∧ s2Scrape.posts.length = 3 := by
  refine ⟨rfl, rfl, rfl, rfl, rfl, rfl, rfl⟩

/-- One user bob with 5 credits and no jobs. -/
def bobStore : Store :=
  { users := [("bob", 5)], jobs := [], next_job_id := 0, posts := [],
    pain_points := [], analyses := [], recommendations := [] }

/-- C9 evaluation at the failing input: `scrape.start` with `limit = 10000`
(outside 1..1000) is accepted — the endpoint validates `topic` and
`time_filter` but never range-checks `limit`, so a pending job is created with
the out-of-range limit instead of an immediate `invalid_params` rejection. -/
theorem C9_limit_not_validated :
    (scrapeStart bobStore "bob" "Notion" 10000 "month" false none
        (.ok ["productivity"] none) true true 0).fst
        = .success 0 "Notion" ["productivity"]
    ∧ (lookupKey (scrapeStart bobStore "bob" "Notion" 10000 "month" false none
        (.ok ["productivity"] none) true true 0).snd.jobs 0).map Job.status
        = some "pending"
    ∧ (lookupKey (scrapeStart bobStore "bob" "Notion" 10000 "month" false none
        (.ok ["productivity"] none) true true 0).snd.jobs 0).map Job.parameters
        = some (.scrape
            { topic := "Notion", limit := 10000, time_filter := "month",
              is_custom := false, subreddits := ["productivity"],
              claude_search_queries := none })
    ∧ bobStore.jobs.length = 0
    ∧ (scrapeStart bobStore "bob" "Notion" 10000 "month" false none
        (.ok ["productivity"] none) true true 0).snd.jobs.length = 1 := by
  refine ⟨rfl, rfl, rfl, rfl, rfl⟩

/-- A pain point for dave's product figma. -/
def davePainPoint : PainPoint :=
  { product := "figma", user_id := "dave", topic := "Slow", description := "d",
    severity := "high", potential_solutions := "", related_keywords := [],
    engagement_summary := "", created_at := 0 }

/-- User dave with 10 credits, pain points for figma, and no recommendation
documents yet. -/
def daveStore : Store :=
  { users := [("dave", 10)], jobs := [], next_job_id := 0, posts := [],
    pain_points := [("dave_figma_Slow", davePainPoint)], analyses := [],
    recommendations := [] }

/-- C3 counterexample: a `recommendations.start` with `regenerate = true` but no
existing document for `(dave, figma, improve_product)` debits 2 credits, not 1 —
the 1-credit price applies only when a prior document exists. -/
theorem C3_counterexample :
    (recommendationsStart daveStore "dave" ["Figma"] (some "improve_product") none true 0).fst
      = .success 0 "Figma" "improve_product" 2
    ∧ lookupKey (recommendationsStart daveStore "dave" ["Figma"] (some "improve_product")
        none true 0).snd.users "dave" = some 8 := by
  refine ⟨rfl, rfl⟩

/-- C3 (amended): for every `recommendations.start` that passes validation and
preconditions, the amount debited at admission is 1 credit exactly when
`regenerate` is true AND a recommendation document already exists for
`(user, product, recommendation_type)`; in every other case — including
`regenerate = true` for a type generated for the first time — it is 2 credits,
and the owner's balance decreases by exactly that amount. -/
theorem C3_amended (s : Store) (u p : String) (rest : List String) (rt_in ctx : Option String)
    (regen : Bool) (now : Int) (c : Nat)
    (hp : ¬ pyStrip p = "")
    (hrt : validRecType (normalizeRecType rt_in) = true)
    (hctx : (match ctx with
      | some cc => decide (cc.length > 500)
      | none => false) = false)
    (hpps : ((s.pain_points.filter (fun kv =>
        kv.snd.product == productKey (pyStrip p) && kv.snd.user_id == u)).isEmpty) = false)
    (hc : lookupKey s.users u = some c)
    (hcred : (if ((lookupKey s.recommendations
        (u ++ ":" ++ productKey (pyStrip p) ++ ":" ++ normalizeRecType rt_in)).isSome && regen)
        then 1 else 2) ≤ c) :
    (recommendationsStart s u (p :: rest) rt_in ctx regen now).fst
      = .success s.next_job_id (pyStrip p) (normalizeRecType rt_in)
          (if ((lookupKey s.recommendations
            (u ++ ":" ++ productKey (pyStrip p) ++ ":" ++ normalizeRecType rt_in)).isSome
            && regen) then 1 else 2)
    ∧ lookupKey (recommendationsStart s u (p :: rest) rt_in ctx regen now).snd.users u
      = some (c - (if ((lookupKey s.recommendations
          (u ++ ":" ++ productKey (pyStrip p) ++ ":" ++ normalizeRecType rt_in)).isSome
          && regen) then 1 else 2)) := by
  unfold recommendationsStart
  have hne : ((p :: rest).isEmpty) = false := rfl
  have hhead : (p :: rest).headD "" = p := rfl
  rw [hne, hhead]
  rw [if_neg (by simp), if_neg hp, if_neg (by simp [hrt]), if_neg (by simp [hctx]),
    if_neg (by simp [hpps]), hc]
  dsimp only []
  rw [if_neg (by simpa using Nat.not_lt.mpr hcred),
    debitCredits_eq s u _ c hc hcred]
  dsimp only [create_job]
  refine ⟨rfl, ?_⟩
  rw [lookupKey_updateKey_self, hc]
  rfl

/-- `daveStore` with an existing improve-product recommendation document. -/
def daveStoreWithRec : Store :=
  { daveStore with recommendations :=
      [("dave:figma:improve_product",
        { product := "figma", recommendations := ["r"],
          recommendation_type := "improve_product", user_id := some "dave",
          created_at := 0 })] }

/-- C3 amended witness: a regenerate with an existing document debits 1 credit
from dave's 10. -/
theorem C3_amended_witness :
    (recommendationsStart daveStoreWithRec "dave" ["Figma"] (some "improve_product")
        none true 0).fst
      = .success daveStoreWithRec.next_job_id (pyStrip "Figma")
          (normalizeRecType (some "improve_product"))
          (if ((lookupKey daveStoreWithRec.recommendations
            ("dave" ++ ":" ++ productKey (pyStrip "Figma") ++ ":" ++
              normalizeRecType (some "improve_product"))).isSome && true) then 1 else 2)
    ∧ lookupKey (recommendationsStart daveStoreWithRec "dave" ["Figma"]
        (some "improve_product") none true 0).snd.users "dave"
      = some (10 - (if ((lookupKey daveStoreWithRec.recommendations
          ("dave" ++ ":" ++ productKey (pyStrip "Figma") ++ ":" ++
            normalizeRecType (some "improve_product"))).isSome && true) then 1 else 2)) :=
  C3_amended daveStoreWithRec "dave" "Figma" [] (some "improve_product") none true 0 10
    (by decide) (by decide) (by decide) (by decide) (by decide) (by decide)

/-- The successful path of `CancelJob.post`, shared by the cancellation proofs:
the job exists, is owned by the caller, is `pending` or `in_progress`, and the
caller has a user record — then the job becomes `cancelled` and exactly 1
credit is added. -/
theorem cancel_success_eq (s : Store) (u : String) (jid : Nat) (now : Int) (j : Job)
    (c : Nat) (hj : lookupKey s.jobs jid = some j) (hown : j.user_id = u)
    (hst : j.status = "pending" ∨ j.status = "in_progress")
    (hc : lookupKey s.users u = some c) :
    (cancel_job s u jid now).fst = .success (some (c + 1))
    ∧ lookupKey (cancel_job s u jid now).snd.users u = some (c + 1)
    ∧ (lookupKey (cancel_job s u jid now).snd.jobs jid).map Job.status
        = some "cancelled" := by
  have hnost : j.status ≠ "cancelled" := by
    rcases hst with h | h <;> rw [h] <;> decide
  have hne := applyJobUpdates_ne_of_status j "cancelled"
    { completed_at := some now, error := some "Job cancelled by user" } now hnost
  have hcb : (!(j.status == "pending" || j.status == "in_progress")) = false := by
    rcases hst with h | h <;> simp [h]
  unfold cancel_job
  rw [hj]
  dsimp only []
  rw [if_neg (fun hno => hno hown), if_neg (by simp [hcb]),
    update_job_status_eq_mod s jid "cancelled" _ now j hj hne]
  dsimp only []
  rw [hc]
  dsimp only []
  unfold creditCredits
  rw [hc]
  dsimp only []
  rw [if_neg (show ¬ ((!true) = true) by decide)]
  dsimp only []
  refine ⟨rfl, ?_, ?_⟩
  · rw [lookupKey_updateKey_self, hc]
    rfl
  · rw [lookupKey_updateKey_self, hj]
    rfl

/-- C5: `job.cancel` succeeds exactly when the job exists, is owned by the
caller, and is `pending` or `in_progress`; a successful cancel transitions the
job to `cancelled` and adds exactly 1 credit, irrespective of job type or the
cost originally debited, and every failure (`not_found`, `forbidden`,
`not_cancellable`) returns the store unchanged.  (The caller is an
authenticated user, so their user record exists.) -/
theorem C5_cancel_spec (s : Store) (u : String) (jid : Nat) (now : Int) (c : Nat)
    (hc : lookupKey s.users u = some c) :
    (lookupKey s.jobs jid = none → cancel_job s u jid now = (.notFound, s))
    ∧ (∀ j, lookupKey s.jobs jid = some j → j.user_id ≠ u →
        cancel_job s u jid now = (.forbidden, s))
    ∧ (∀ j, lookupKey s.jobs jid = some j → j.user_id = u →
        j.status ≠ "pending" → j.status ≠ "in_progress" →
        cancel_job s u jid now = (.notCancellable j.status, s))
    ∧ (∀ j, lookupKey s.jobs jid = some j → j.user_id = u →
        (j.status = "pending" ∨ j.status = "in_progress") →
        (cancel_job s u jid now).fst = .success (some (c + 1))
        ∧ lookupKey (cancel_job s u jid now).snd.users u = some (c + 1)
        ∧ (lookupKey (cancel_job s u jid now).snd.jobs jid).map Job.status
            = some "cancelled") := by
  refine ⟨?_, ?_, ?_, ?_⟩
  · intro h
    unfold cancel_job
    rw [h]
  · intro j hj hno
    unfold cancel_job
    rw [hj]
    dsimp only []
    rw [if_pos hno]
  · intro j hj hown h1 h2
    unfold cancel_job
    rw [hj]
    dsimp only []
    rw [if_neg (fun hno => hno hown), if_pos (by simp [h1, h2])]
  · intro j hj hown hst
    exact cancel_success_eq s u jid now j c hj hown hst hc

/-- C5 witness: alice cancels her pending job in the concrete store. -/
theorem C5_witness :
    (cancel_job sampleStore "alice" 0 100).fst = .success (some (10 + 1))
    ∧ lookupKey (cancel_job sampleStore "alice" 0 100).snd.users "alice" = some (10 + 1)
    ∧ (lookupKey (cancel_job sampleStore "alice" 0 100).snd.jobs 0).map Job.status
        = some "cancelled" :=
  (C5_cancel_spec sampleStore "alice" 0 100 10 (by decide)).2.2.2 sampleAnalysisJob
    (by decide) (by decide) (Or.inl (by decide))

/-- The pending job document created by `RunAnalysis.post`. -/
def analysisJobDoc (u p : String) (mp : Int) (skip regen : Bool) (now : Int) : Job :=
  { user_id := u,
    status := "pending",
    parameters := .analysis
      { product := pyStrip p, max_posts := clampMaxPosts mp,
        skip_recommendations := skip, regenerate := regen },
    created_at := now }

/-- C10: starting an analysis with `regenerate = false` debits nothing, yet a
successful cancel of that pending job still credits the owner 1 — so the
owner's balance ends exactly 1 credit above where it started: the fixed
1-credit cancellation refund is paid even for jobs that were admitted free. -/
theorem C10_cancel_free_job_mints_credit (s : Store) (u p : String) (mp : Int)
    (skip : Bool) (now1 now2 : Int) (c : Nat)
    (hc : lookupKey s.users u = some c)
    (hp : ¬ pyStrip p = "")
    (hposts : ¬ (s.posts.filter (fun kv => kv.snd.product == some (pyStrip p))).length = 0)
    (hfresh : lookupKey s.jobs s.next_job_id = none) :
    (runAnalysisStart s u p mp skip false now1).fst = .success s.next_job_id (pyStrip p)
    ∧ (cancel_job (runAnalysisStart s u p mp skip false now1).snd u s.next_job_id now2).fst
        = .success (some (c + 1))
    ∧ lookupKey (cancel_job (runAnalysisStart s u p mp skip false now1).snd u
        s.next_job_id now2).snd.users u = some (c + 1)
    ∧ (lookupKey (cancel_job (runAnalysisStart s u p mp skip false now1).snd u
        s.next_job_id now2).snd.jobs s.next_job_id).map Job.status = some "cancelled" := by
  have hrun : runAnalysisStart s u p mp skip false now1
      = (.success s.next_job_id (pyStrip p),
         { s with jobs := s.jobs ++ [(s.next_job_id, analysisJobDoc u p mp skip false now1)],
                  next_job_id := s.next_job_id + 1 }) := by
    unfold runAnalysisStart
    rw [if_neg hp, if_neg hposts]
    rfl
  rw [hrun]
  refine ⟨rfl, ?_⟩
  have hj : lookupKey ({ s with
      jobs := s.jobs ++ [(s.next_job_id, analysisJobDoc u p mp skip false now1)],
      next_job_id := s.next_job_id + 1 } : Store).jobs s.next_job_id
      = some (analysisJobDoc u p mp skip false now1) := by
    dsimp only []
    rw [lookupKey_append, hfresh]
    simp [lookupKey]
  exact cancel_success_eq _ u s.next_job_id now2 _ c hj rfl (Or.inl rfl) hc

/-- A scraped post attributed to product Jira. -/
def jiraPost : Post :=
  { id := "pp1", title := "t", content := "c", score := 1, num_comments := 0,
    product := some "Jira", created_at := 0 }

/-- User frank with 3 credits and one scraped post for product Jira. -/
def frankStore : Store :=
  { users := [("frank", 3)], jobs := [], next_job_id := 0,
    posts := [("pp1", jiraPost)],
    pain_points := [], analyses := [], recommendations := [] }

/-- C10 witness: frank starts a free analysis and cancels it, ending with 4
credits instead of his original 3. -/
theorem C10_witness :
    (runAnalysisStart frankStore "frank" "Jira" 500 false false 0).fst
      = .success frankStore.next_job_id (pyStrip "Jira")
    ∧ (cancel_job (runAnalysisStart frankStore "frank" "Jira" 500 false false 0).snd "frank"
        frankStore.next_job_id 50).fst = .success (some (3 + 1))
    ∧ lookupKey (cancel_job (runAnalysisStart frankStore "frank" "Jira" 500 false false 0).snd
        "frank" frankStore.next_job_id 50).snd.users "frank" = some (3 + 1)
    ∧ (lookupKey (cancel_job (runAnalysisStart frankStore "frank" "Jira" 500 false false 0).snd
        "frank" frankStore.next_job_id 50).snd.jobs frankStore.next_job_id).map Job.status
        = some "cancelled" :=
  C10_cancel_free_job_mints_credit frankStore "frank" "Jira" 500 false 0 50 3
    (by decide) (by decide) (by decide) (by decide)

/-- C8: an accepted `analysis.start` with `regenerate = true` debits 1 credit
and deletes the prior analysis document, every pain point and every
recommendation document for `(user, product)`; the resulting store holds the
fresh pending job (the runner has not yet started) and none of the prior
artifacts. -/
theorem C8_regenerate_clears (s : Store) (u p : String) (mp : Int) (skip : Bool)
    (now : Int) (c : Nat)
    (hc : lookupKey s.users u = some c) (h1c : 1 ≤ c) (hu : ¬ u = "")
    (hp : ¬ pyStrip p = "")
    (hposts : ¬ (s.posts.filter (fun kv => kv.snd.product == some (pyStrip p))).length = 0)
    (hfresh : lookupKey s.jobs s.next_job_id = none) :
    (runAnalysisStart s u p mp skip true now).fst = .success s.next_job_id (pyStrip p)
    ∧ lookupKey (runAnalysisStart s u p mp skip true now).snd.analyses
        (u ++ ":" ++ productKey (pyStrip p)) = none
    ∧ (∀ kv ∈ (runAnalysisStart s u p mp skip true now).snd.pain_points,
        ¬(kv.snd.product = productKey (pyStrip p) ∧ kv.snd.user_id = u))
    ∧ (∀ kv ∈ (runAnalysisStart s u p mp skip true now).snd.recommendations,
        ¬(kv.snd.product = productKey (pyStrip p) ∧ kv.snd.user_id = some u))
    ∧ lookupKey (runAnalysisStart s u p mp skip true now).snd.users u = some (c - 1)
    ∧ (lookupKey (runAnalysisStart s u p mp skip true now).snd.jobs s.next_job_id).map
        Job.status = some "pending" := by
  have hid : analysisDocId (some u) (pyStrip p) = u ++ ":" ++ productKey (pyStrip p) := by
    simp [analysisDocId, userScope, hu]
  have hscope : userScope (some u) = some u := by
    simp [userScope, hu]
  unfold runAnalysisStart
  rw [if_neg hp, if_neg hposts]
  dsimp only []
  rw [if_pos (show (true : Bool) = true from rfl), hc]
  dsimp only []
  rw [if_neg (by omega : ¬ c < 1), debitCredits_eq s u 1 c hc h1c]
  dsimp only [delete_anthropic_analysis, delete_pain_points_by_product,
    delete_recommendations_by_product, create_job]
  refine ⟨rfl, ?_, ?_, ?_, ?_, ?_⟩
  · rw [← hid]
    exact lookupKey_removeKey_self _ _
  · intro kv hkv
    rw [hscope] at hkv
    have := List.of_mem_filter hkv
    intro hand
    simp only [Bool.not_eq_true', Bool.and_eq_false_iff, beq_eq_false_iff_ne] at this
    rcases this with h | h
    · exact h hand.1
    · exact h hand.2
  · intro kv hkv
    rw [hscope] at hkv
    have := List.of_mem_filter hkv
    intro hand
    simp only [Bool.not_eq_true', Bool.and_eq_false_iff, beq_eq_false_iff_ne] at this
    rcases this with h | h
    · exact h hand.1
    · exact h hand.2
  · rw [lookupKey_updateKey_self, hc]
    rfl
  · rw [lookupKey_append, hfresh]
    simp [lookupKey]

/-- A pain point of grace for product jira. -/
def gracePainPoint : PainPoint :=
  { product := "jira", user_id := "grace", topic := "Sync", description := "d",
    severity := "high", potential_solutions := "", related_keywords := [],
    engagement_summary := "", created_at := 0 }

/-- A prior analysis document of grace for product jira. -/
def graceAnalysis : AnalysisDoc :=
  { product := "jira", analysis := "old", user_id := some "grace", created_at := 0 }

/-- A prior recommendation document of grace for product jira. -/
def graceRec : RecDoc :=
  { product := "jira", recommendations := ["r"],
    recommendation_type := "improve_product", user_id := some "grace", created_at := 0 }

/-- User grace with 5 credits, a Jira post, and prior analysis artifacts. -/
def graceStore : Store :=
  { users := [("grace", 5)], jobs := [], next_job_id := 0,
    posts := [("pp1", jiraPost)],
    pain_points := [("grace_jira_Sync", gracePainPoint)],
    analyses := [("grace:jira", graceAnalysis)],
    recommendations := [("grace:jira:improve_product", graceRec)] }

/-- C8 witness: grace's regenerate clears her jira artifacts and debits 1 of
her 5 credits. -/
theorem C8_witness :
    (runAnalysisStart graceStore "grace" "Jira" 500 false true 0).fst
      = .success graceStore.next_job_id (pyStrip "Jira")
    ∧ lookupKey (runAnalysisStart graceStore "grace" "Jira" 500 false true 0).snd.analyses
        ("grace" ++ ":" ++ productKey (pyStrip "Jira")) = none
    ∧ (∀ kv ∈ (runAnalysisStart graceStore "grace" "Jira" 500 false true 0).snd.pain_points,
        ¬(kv.snd.product = productKey (pyStrip "Jira") ∧ kv.snd.user_id = "grace"))
    ∧ (∀ kv ∈ (runAnalysisStart graceStore "grace" "Jira" 500 false true
        0).snd.recommendations,
        ¬(kv.snd.product = productKey (pyStrip "Jira") ∧ kv.snd.user_id = some "grace"))
    ∧ lookupKey (runAnalysisStart graceStore "grace" "Jira" 500 false true 0).snd.users
        "grace" = some (5 - 1)
    ∧ (lookupKey (runAnalysisStart graceStore "grace" "Jira" 500 false true 0).snd.jobs
        graceStore.next_job_id).map Job.status = some "pending" :=
  C8_regenerate_clears graceStore "grace" "Jira" 500 false 0 5
    (by decide) (by decide) (by decide) (by decide) (by decide) (by decide)

theorem append_ne_of_length_ne (b x y : String) (h : x.length ≠ y.length) :
    b ++ x ≠ b ++ y := by
  intro he
  apply h
  have hl := congrArg String.length he
  rw [String.length_append, String.length_append] at hl
  omega

/-- The store after saving an improve-product and then a new-feature
recommendation set for the same `(user, product)`. -/
def savedTwice (s : Store) (u p : String) (recs1 recs2 : List String) (sum1 sum2 : String)
    (ts1 ts2 : Option String) (now1 now2 : Int) : Store :=
  (save_recommendations
    (save_recommendations s p recs1 (some u) "improve_product" (some sum1) ts1 now1).snd
    p recs2 (some u) "new_feature" (some sum2) ts2 now2).snd

/-- The recommendation document produced by `save_recommendations` for a
user-scoped save of a valid type. -/
def recDocOf (pn : String) (recs : List String) (tv uu sum : String) (ts : Option String)
    (now : Int) : RecDoc :=
  { product := pn, recommendations := recs, recommendation_type := tv,
    user_id := some uu, summary := some sum, timestamp := ts, created_at := now }

/-- C7: recommendation documents are keyed by `(user, product, type)`: saving
`improve_product` and then `new_feature` for the same `(u, p)` yields two
distinct coexisting documents; fetching each type returns exactly the document
stored under it, and fetching a type with no stored document (here
`competing_product`) returns the empty list. -/
theorem C7_recommendation_type_isolation (s : Store) (u p : String)
    (recs1 recs2 : List String) (sum1 sum2 : String) (ts1 ts2 : Option String)
    (now1 now2 : Int) (hu : ¬ u = "") (hp : ¬ p = "")
    (hrec : s.recommendations = []) :
    ∃ d1 d2,
      recommendations_get (savedTwice s u p recs1 recs2 sum1 sum2 ts1 ts2 now1 now2) u
          (some p) (some "improve_product") = [d1]
      ∧ recommendations_get (savedTwice s u p recs1 recs2 sum1 sum2 ts1 ts2 now1 now2) u
          (some p) (some "new_feature") = [d2]
      ∧ d1.recommendation_type = "improve_product"
      ∧ d2.recommendation_type = "new_feature"
      ∧ d1.recommendations = recs1
      ∧ d2.recommendations = recs2
      ∧ d1 ≠ d2
      ∧ recommendations_get (savedTwice s u p recs1 recs2 sum1 sum2 ts1 ts2 now1 now2) u
          (some p) (some "competing_product") = [] := by
  have hscope : userScope (some u) = some u := by simp [userScope, hu]
  have hne12 : u ++ ":" ++ productKey p ++ ":" ++ "improve_product"
      ≠ u ++ ":" ++ productKey p ++ ":" ++ "new_feature" :=
    append_ne_of_length_ne _ _ _ (by decide)
  have hne13 : u ++ ":" ++ productKey p ++ ":" ++ "improve_product"
      ≠ u ++ ":" ++ productKey p ++ ":" ++ "competing_product" :=
    append_ne_of_length_ne _ _ _ (by decide)
  have hne23 : u ++ ":" ++ productKey p ++ ":" ++ "new_feature"
      ≠ u ++ ":" ++ productKey p ++ ":" ++ "competing_product" :=
    append_ne_of_length_ne _ _ _ (by decide)
  have hsave1 : (save_recommendations s p recs1 (some u) "improve_product" (some sum1)
        ts1 now1).snd.recommendations
      = upsertKey s.recommendations
          (recDocId (some u) (productKey p) "improve_product")
          (recDocOf (productKey p) recs1 "improve_product" u sum1 ts1 now1) := by
    unfold save_recommendations recDocOf
    rw [hscope]
    rfl
  have hsave2 : ∀ st : Store, (save_recommendations st p recs2 (some u) "new_feature"
        (some sum2) ts2 now2).snd.recommendations
      = upsertKey st.recommendations
          (recDocId (some u) (productKey p) "new_feature")
          (recDocOf (productKey p) recs2 "new_feature" u sum2 ts2 now2) := by
    intro st
    unfold save_recommendations recDocOf
    rw [hscope]
    rfl
  have hid1 : recDocId (some u) (productKey p) "improve_product"
      = u ++ ":" ++ productKey p ++ ":" ++ "improve_product" := by
    unfold recDocId
    rw [hscope]
  have hid2 : recDocId (some u) (productKey p) "new_feature"
      = u ++ ":" ++ productKey p ++ ":" ++ "new_feature" := by
    unfold recDocId
    rw [hscope]
  have hs2 : (savedTwice s u p recs1 recs2 sum1 sum2 ts1 ts2 now1 now2).recommendations
      = [(u ++ ":" ++ productKey p ++ ":" ++ "improve_product",
          recDocOf (productKey p) recs1 "improve_product" u sum1 ts1 now1),
         (u ++ ":" ++ productKey p ++ ":" ++ "new_feature",
          recDocOf (productKey p) recs2 "new_feature" u sum2 ts2 now2)] := by
    unfold savedTwice
    rw [hsave2, hsave1, hrec, hid1, hid2]
    dsimp only [upsertKey, lookupKey]
    rw [if_neg (fun he => hne12 he)]
    rfl
  have hrt1 : (if validRecType (normalizeRecType (some "improve_product")) = true then
      normalizeRecType (some "improve_product") else "improve_product")
      = "improve_product" := rfl
  have hrt2 : (if validRecType (normalizeRecType (some "new_feature")) = true then
      normalizeRecType (some "new_feature") else "improve_product")
      = "new_feature" := rfl
  have hrt3 : (if validRecType (normalizeRecType (some "competing_product")) = true then
      normalizeRecType (some "competing_product") else "improve_product")
      = "competing_product" := rfl
  refine ⟨recDocOf (productKey p) recs1 "improve_product" u sum1 ts1 now1,
    recDocOf (productKey p) recs2 "new_feature" u sum2 ts2 now2,
    ?_, ?_, rfl, rfl, rfl, rfl, ?_, ?_⟩
  · unfold recommendations_get
    dsimp only []
    rw [if_neg hp, if_neg hu, hs2]
    dsimp only [lookupKey]
    rw [hrt1,
      if_pos (rfl : (u ++ ":" ++ productKey p ++ ":" ++ "improve_product")
        = (u ++ ":" ++ productKey p ++ ":" ++ "improve_product"))]
    rfl
  · unfold recommendations_get
    dsimp only []
    rw [if_neg hp, if_neg hu, hs2]
    dsimp only [lookupKey]
    rw [hrt2, if_neg (fun he => hne12 he),
      if_pos (rfl : (u ++ ":" ++ productKey p ++ ":" ++ "new_feature")
        = (u ++ ":" ++ productKey p ++ ":" ++ "new_feature"))]
    rfl
  · intro he
    have hty := congrArg RecDoc.recommendation_type he
    simp [recDocOf] at hty
  · unfold recommendations_get
    dsimp only []
    rw [if_neg hp, if_neg hu, hs2]
    dsimp only [lookupKey]
    rw [hrt3, if_neg (fun he => hne13 he), if_neg (fun he => hne23 he)]
    rfl

/-- C7 witness: the two saves and three fetches on dave's concrete store. -/
theorem C7_witness :
    ∃ d1 d2,
      recommendations_get (savedTwice daveStore "dave" "Figma" ["a"] ["b"] "s1" "s2"
          none none 0 1) "dave" (some "Figma") (some "improve_product") = [d1]
      ∧ recommendations_get (savedTwice daveStore "dave" "Figma" ["a"] ["b"] "s1" "s2"
          none none 0 1) "dave" (some "Figma") (some "new_feature") = [d2]
      ∧ d1.recommendation_type = "improve_product"
      ∧ d2.recommendation_type = "new_feature"
      ∧ d1.recommendations = ["a"]
      ∧ d2.recommendations = ["b"]
      ∧ d1 ≠ d2
      ∧ recommendations_get (savedTwice daveStore "dave" "Figma" ["a"] ["b"] "s1" "s2"
          none none 0 1) "dave" (some "Figma") (some "competing_product") = [] :=
  C7_recommendation_type_isolation daveStore "dave" "Figma" ["a"] ["b"] "s1" "s2"
    none none 0 1 (by decide) (by decide) (by decide)

/-! Field-level facts used to walk the runner chains of `api.py`. -/

theorem save_recommendations_fst (s : Store) (p : String) (recs : List String)
    (uid : Option String) (t : String) (sum ts : Option String) (now : Int) :
    (save_recommendations s p recs uid t sum ts now).fst = true := rfl

theorem save_recommendations_lookup_jobs (s : Store) (p : String) (recs : List String)
    (uid : Option String) (t : String) (sum ts : Option String) (now : Int) (jid : Nat) :
    lookupKey (save_recommendations s p recs uid t sum ts now).snd.jobs jid
      = lookupKey s.jobs jid := rfl

theorem save_anthropic_analysis_lookup_jobs (s : Store) (p a : String)
    (uid : Option String) (now : Int) (jid : Nat) :
    lookupKey (save_anthropic_analysis s p a uid now).snd.jobs jid
      = lookupKey s.jobs jid := rfl

theorem foldl_save_pain_point_lookup_jobs (un pn : String) (now : Int)
    (L : List PainPointInput) (st : Store) (jid : Nat) :
    lookupKey ((L.foldl (fun st pp =>
        (save_pain_point st (painPointOfInput un pn pp now)).snd) st)).jobs jid
      = lookupKey st.jobs jid := by
  rw [foldl_save_pain_point_jobs]

/-- C4: refund on failure.  For a recommendations job that debited `k` credits
at admission, a failing runner credits exactly `k` back and sets
`credits_used = k`, while a completing runner refunds nothing (and records the
same `credits_used`); for an analysis job admitted with `regenerate = true`
(the only analysis admission that debits, `k = 1`), a failing runner credits
exactly 1 back and sets `credits_used = 1`, while a completing runner refunds
nothing. -/
theorem C4_refund_on_failure (s : Store) (jid : Nat) (u prod : String)
    (ctx : Option String) (pps : List PainPoint) (k : Nat) (e : String)
    (recs : List String) (summary : String) (ts : Option String) (payload : String)
    (ppsIn : List PainPointInput) (recsOut : RecOutcome) (mp jstart : Int) (skip : Bool)
    (now : Int) (c : Nat) (j : Job)
    (hc : lookupKey s.users u = some c) (hj : lookupKey s.jobs jid = some j) :
    (lookupKey (background_recommendations s jid u prod ctx pps k (.err e) now).users u
        = some (c + k)
      ∧ ∃ j', lookupKey (background_recommendations s jid u prod ctx pps k
            (.err e) now).jobs jid = some j'
          ∧ j'.status = "failed" ∧ j'.credits_used = some k ∧ j'.error = some e)
    ∧ (lookupKey (background_recommendations s jid u prod ctx pps k
          (.ok recs summary ts) now).users u = some c
      ∧ ∃ j', lookupKey (background_recommendations s jid u prod ctx pps k
            (.ok recs summary ts) now).jobs jid = some j'
          ∧ j'.status = "completed" ∧ j'.credits_used = some k)
    ∧ (lookupKey (background_analysis s jid u prod mp skip true (.err e) jstart now).users u
        = some (c + 1)
      ∧ ∃ j', lookupKey (background_analysis s jid u prod mp skip true (.err e) jstart
            now).jobs jid = some j'
          ∧ j'.status = "failed" ∧ j'.credits_used = some 1 ∧ j'.error = some e)
    ∧ (lookupKey (background_analysis s jid u prod mp skip true (.ok payload ppsIn recsOut)
          jstart now).users u = some c
      ∧ ∃ j', lookupKey (background_analysis s jid u prod mp skip true
            (.ok payload ppsIn recsOut) jstart now).jobs jid = some j'
          ∧ j'.status = "completed" ∧ j'.credits_used = some 1) := by
  refine ⟨⟨?_, ?_⟩, ⟨?_, ?_⟩, ⟨?_, ?_⟩, ⟨?_, ?_⟩⟩
  · unfold background_recommendations
    dsimp only []
    exact creditCredits_lookup_self _ u k c (by
      rw [update_job_status_users, append_job_log_users, append_job_log_users,
        append_job_log_users, update_job_status_users]
      exact hc)
  · unfold background_recommendations
    dsimp only []
    rw [creditCredits_jobs]
    refine ⟨_, update_job_status_lookup_self _ _ _ _ _ _
      (append_job_log_lookup_self _ _ _ _ _ _ _
        (append_job_log_lookup_self _ _ _ _ _ _ _
          (append_job_log_lookup_self _ _ _ _ _ _ _
            (update_job_status_lookup_self _ _ _ _ _ _ hj)))), rfl, rfl, rfl⟩
  · unfold background_recommendations
    dsimp only []
    rw [save_recommendations_fst, if_neg (by decide : ¬ ((!true) = true))]
    rw [update_job_status_users, append_job_log_users, save_recommendations_users,
      append_job_log_users, append_job_log_users, update_job_status_users]
    exact hc
  · unfold background_recommendations
    dsimp only []
    rw [save_recommendations_fst, if_neg (by decide : ¬ ((!true) = true))]
    refine ⟨_, update_job_status_lookup_self _ _ _ _ _ _
      (append_job_log_lookup_self _ _ _ _ _ _ _
        ((save_recommendations_lookup_jobs _ _ _ _ _ _ _ _ jid).trans
          (append_job_log_lookup_self _ _ _ _ _ _ _
            (append_job_log_lookup_self _ _ _ _ _ _ _
              (update_job_status_lookup_self _ _ _ _ _ _ hj))))), rfl, rfl⟩
  · unfold background_analysis
    dsimp only []
    rw [if_pos (rfl : (true : Bool) = true)]
    exact creditCredits_lookup_self _ u 1 c (by
      rw [update_job_status_users, append_job_log_users, append_job_log_users,
        append_job_log_users, update_job_status_users]
      exact hc)
  · unfold background_analysis
    dsimp only []
    rw [if_pos (rfl : (true : Bool) = true), creditCredits_jobs]
    refine ⟨_, update_job_status_lookup_self _ _ _ _ _ _
      (append_job_log_lookup_self _ _ _ _ _ _ _
        (append_job_log_lookup_self _ _ _ _ _ _ _
          (append_job_log_lookup_self _ _ _ _ _ _ _
            (update_job_status_lookup_self _ _ _ _ _ _ hj)))), rfl, rfl, rfl⟩
  · unfold background_analysis
    dsimp only []
    cases skip with
    | true =>
      rw [if_pos (rfl : (true : Bool) = true)]
      rw [update_job_status_users, append_job_log_users, append_job_log_users,
        foldl_save_pain_point_users, save_anthropic_analysis_users, append_job_log_users,
        append_job_log_users, append_job_log_users, update_job_status_users]
      exact hc
    | false =>
      rw [if_neg (by decide : ¬ ((false : Bool) = true))]
      cases recsOut with
      | err e2 =>
        rw [update_job_status_users, append_job_log_users, append_job_log_users,
          foldl_save_pain_point_users, save_anthropic_analysis_users, append_job_log_users,
          append_job_log_users, append_job_log_users, update_job_status_users]
        exact hc
      | ok recs2 sum2 ts2 =>
        rw [update_job_status_users, append_job_log_users, append_job_log_users,
          save_recommendations_users, foldl_save_pain_point_users,
          save_anthropic_analysis_users, append_job_log_users, append_job_log_users,
          append_job_log_users, update_job_status_users]
        exact hc
  · unfold background_analysis
    dsimp only []
    cases skip with
    | true =>
      rw [if_pos (rfl : (true : Bool) = true)]
      refine ⟨_, update_job_status_lookup_self _ _ _ _ _ _
        (append_job_log_lookup_self _ _ _ _ _ _ _
          (append_job_log_lookup_self _ _ _ _ _ _ _
            ((foldl_save_pain_point_lookup_jobs _ _ _ _ _ jid).trans
              ((save_anthropic_analysis_lookup_jobs _ _ _ _ _ jid).trans
                (append_job_log_lookup_self _ _ _ _ _ _ _
                  (append_job_log_lookup_self _ _ _ _ _ _ _
                    (append_job_log_lookup_self _ _ _ _ _ _ _
                      (update_job_status_lookup_self _ _ _ _ _ _ hj)))))))), rfl, rfl⟩
    | false =>
      rw [if_neg (by decide : ¬ ((false : Bool) = true))]
      cases recsOut with
      | err e2 =>
        refine ⟨_, update_job_status_lookup_self _ _ _ _ _ _
          (append_job_log_lookup_self _ _ _ _ _ _ _
            (append_job_log_lookup_self _ _ _ _ _ _ _
              ((foldl_save_pain_point_lookup_jobs _ _ _ _ _ jid).trans
                ((save_anthropic_analysis_lookup_jobs _ _ _ _ _ jid).trans
                  (append_job_log_lookup_self _ _ _ _ _ _ _
                    (append_job_log_lookup_self _ _ _ _ _ _ _
                      (append_job_log_lookup_self _ _ _ _ _ _ _
                        (update_job_status_lookup_self _ _ _ _ _ _ hj)))))))), rfl, rfl⟩
      | ok recs2 sum2 ts2 =>
        refine ⟨_, update_job_status_lookup_self _ _ _ _ _ _
          (append_job_log_lookup_self _ _ _ _ _ _ _
            (append_job_log_lookup_self _ _ _ _ _ _ _
              ((save_recommendations_lookup_jobs _ _ _ _ _ _ _ _ jid).trans
                ((foldl_save_pain_point_lookup_jobs _ _ _ _ _ jid).trans
                  ((save_anthropic_analysis_lookup_jobs _ _ _ _ _ jid).trans
                    (append_job_log_lookup_self _ _ _ _ _ _ _
                      (append_job_log_lookup_self _ _ _ _ _ _ _
                        (append_job_log_lookup_self _ _ _ _ _ _ _
                          (update_job_status_lookup_self _ _ _ _ _ _ hj))))))))), rfl, rfl⟩

/-- C4 witness: the failing recommendations runner (k = 2) refunds alice to 12
and records `credits_used = 2`; the completing analysis-regenerate runner
leaves her at 10 with `credits_used = 1`. -/
theorem C4_witness :
    (lookupKey (background_recommendations sampleStore 0 "alice" "Jira" none [] 2
        (.err "rate_limited") 5).users "alice" = some (10 + 2)
      ∧ ∃ j', lookupKey (background_recommendations sampleStore 0 "alice" "Jira" none [] 2
            (.err "rate_limited") 5).jobs 0 = some j'
          ∧ j'.status = "failed" ∧ j'.credits_used = some 2
          ∧ j'.error = some "rate_limited")
    ∧ (lookupKey (background_analysis sampleStore 0 "alice" "Jira" 500 false true
          (.ok "pl" [] (.err "x")) 0 5).users "alice" = some 10
      ∧ ∃ j', lookupKey (background_analysis sampleStore 0 "alice" "Jira" 500 false true
            (.ok "pl" [] (.err "x")) 0 5).jobs 0 = some j'
          ∧ j'.status = "completed" ∧ j'.credits_used = some 1) :=
  ⟨(C4_refund_on_failure sampleStore 0 "alice" "Jira" none [] 2 "rate_limited" ["r1"]
      "sum" none "pl" [] (.err "x") 500 0 false 5 10 sampleAnalysisJob
      (by decide) (by decide)).1,
   (C4_refund_on_failure sampleStore 0 "alice" "Jira" none [] 2 "rate_limited" ["r1"]
      "sum" none "pl" [] (.err "x") 500 0 false 5 10 sampleAnalysisJob
      (by decide) (by decide)).2.2.2⟩

/-- C6: one watchdog sweep with timeout `t` transitions every `in_progress` job
whose `started_at` is older than `now − t` to `failed` with the error
`"Job timed out after <n> minutes"` (with `n` computed from `now − started_at`),
and every `pending` job whose `created_at` is older than the cutoff to `failed`
with `"Job timed out (pending too long)"`; both writes set `completed_at`. -/
theorem C6_watchdog_reaps (s : Store) (timeout_minutes : Nat) (now : Int) (jid : Nat)
    (j : Job) (t : Int)
    (hn : (s.jobs.map Prod.fst).Nodup) (hj : lookupKey s.jobs jid = some j) :
    (j.status = "in_progress" → j.started_at = some t →
      t < now - 60 * (timeout_minutes : Int) →
      ∃ j', lookupKey (check_stuck_jobs s timeout_minutes now).snd.jobs jid = some j'
        ∧ j'.status = "failed"
        ∧ j'.error = some ("Job timed out after " ++ pyNatRepr ((now - t).toNat / 60)
            ++ " minutes")
        ∧ j'.completed_at = some now)
    ∧ (j.status = "pending" → j.created_at < now - 60 * (timeout_minutes : Int) →
      ∃ j', lookupKey (check_stuck_jobs s timeout_minutes now).snd.jobs jid = some j'
        ∧ j'.status = "failed"
        ∧ j'.error = some "Job timed out (pending too long)"
        ∧ j'.completed_at = some now) := by
  constructor
  · intro hst hstart ht
    unfold check_stuck_jobs
    dsimp only []
    set cutoff := now - 60 * (timeout_minutes : Int) with hcut
    set stuck1 := s.jobs.filter (fun kv => isStuckInProgress cutoff kv.snd) with hstuck1
    have hmem : (jid, j) ∈ s.jobs := mem_of_lookupKey _ _ _ hj
    have hpred : isStuckInProgress cutoff j = true := by
      simp [isStuckInProgress, hst, hstart, ht]
    have hmem1 : (jid, j) ∈ stuck1 := by
      rw [hstuck1]
      exact List.mem_filter.mpr ⟨hmem, hpred⟩
    have hsub1 : (stuck1.map Prod.fst).Nodup := by
      rw [hstuck1]
      exact List.Nodup.sublist ((List.filter_sublist _).map Prod.fst) hn
    obtain ⟨L1, L2, hsplit, h1, h2⟩ := exists_split_of_mem_nodup stuck1 jid j hmem1 hsub1
    rw [hsplit]
    have hhit : lookupKey ((List.foldl
        (reapStep (stuckErrorMessage now timeout_minutes) now) (0, s)
        (L1 ++ (jid, j) :: L2)).snd).jobs jid
        = some (applyJobUpdates j "failed"
            { error := some (stuckErrorMessage now timeout_minutes j),
              completed_at := some now } now) :=
      foldl_reapStep_hit _ now L1 L2 jid j j (0, s) hj h1 h2
    have hkeys : ((List.foldl (reapStep (stuckErrorMessage now timeout_minutes) now)
        (0, s) (L1 ++ (jid, j) :: L2)).snd).jobs.map Prod.fst = s.jobs.map Prod.fst :=
      foldl_reapStep_map_fst _ _ _ _
    have hnone : ∀ kv ∈ ((List.foldl (reapStep (stuckErrorMessage now timeout_minutes)
          now) (0, s) (L1 ++ (jid, j) :: L2)).snd).jobs.filter
          (fun kv => isStuckPending cutoff kv.snd), kv.fst ≠ jid := by
      intro kv hkv he
      have hkv' := List.mem_filter.mp hkv
      have h1' := lookupKey_eq_of_mem_of_nodup _ kv.fst kv.snd hkv'.1
        (by rw [hkeys]; exact hn)
      rw [he, hhit] at h1'
      have hv := Option.some.inj h1'
      have hpend := hkv'.2
      rw [← hv] at hpend
      simp [isStuckPending, applyJobUpdates] at hpend
    rw [foldl_reapStep_lookup_ne _ _ _ _ jid hnone, hhit]
    refine ⟨_, rfl, rfl, ?_, rfl⟩
    simp [applyJobUpdates, stuckErrorMessage, hstart]
  · intro hst hcreated
    unfold check_stuck_jobs
    dsimp only []
    set cutoff := now - 60 * (timeout_minutes : Int) with hcut
    have hnone1 : ∀ kv ∈ s.jobs.filter (fun kv => isStuckInProgress cutoff kv.snd),
        kv.fst ≠ jid := by
      intro kv hkv he
      have hkv' := List.mem_filter.mp hkv
      have h1' := lookupKey_eq_of_mem_of_nodup _ kv.fst kv.snd hkv'.1 hn
      rw [he, hj] at h1'
      have hv := Option.some.inj h1'
      have hprog := hkv'.2
      rw [← hv] at hprog
      simp [isStuckInProgress, hst] at hprog
    have ha1 : lookupKey ((List.foldl
        (reapStep (stuckErrorMessage now timeout_minutes) now) (0, s)
        (s.jobs.filter (fun kv => isStuckInProgress cutoff kv.snd))).snd).jobs jid
        = some j := by
      rw [foldl_reapStep_lookup_ne _ _ _ _ jid hnone1]
      exact hj
    set a1 := List.foldl (reapStep (stuckErrorMessage now timeout_minutes) now) (0, s)
      (s.jobs.filter (fun kv => isStuckInProgress cutoff kv.snd)) with ha1def
    have hkeys : (a1.snd.jobs.map Prod.fst) = s.jobs.map Prod.fst := by
      rw [ha1def]
      exact foldl_reapStep_map_fst _ _ _ _
    have hmem2 : (jid, j) ∈ a1.snd.jobs := mem_of_lookupKey _ _ _ ha1
    have hpred2 : isStuckPending cutoff j = true := by
      simp [isStuckPending, hst, hcreated]
    have hmem2' : (jid, j) ∈ a1.snd.jobs.filter (fun kv => isStuckPending cutoff kv.snd) :=
      List.mem_filter.mpr ⟨hmem2, hpred2⟩
    have hsub2 : ((a1.snd.jobs.filter (fun kv => isStuckPending cutoff kv.snd)).map
        Prod.fst).Nodup :=
      List.Nodup.sublist ((List.filter_sublist _).map Prod.fst) (by rw [hkeys]; exact hn)
    obtain ⟨L1, L2, hsplit, h1, h2⟩ := exists_split_of_mem_nodup _ jid j hmem2' hsub2
    rw [hsplit]
    rw [foldl_reapStep_hit _ now L1 L2 jid j j a1 ha1 h1 h2]
    exact ⟨_, rfl, rfl, rfl, rfl⟩

/-- An analysis job stuck `in_progress` since time 0. -/
def stuckJob : Job :=
  { user_id := "erin",
    status := "in_progress",
    parameters := .analysis
      { product := "Jira", max_posts := 500, skip_recommendations := false,
        regenerate := false },
    created_at := 0,
    started_at := some 0 }

/-- An analysis job stuck `pending` since time 0. -/
def stuckPendingJob : Job :=
  { user_id := "erin",
    status := "pending",
    parameters := .analysis
      { product := "Jira", max_posts := 500, skip_recommendations := false,
        regenerate := false },
    created_at := 0 }

/-- A store with one stuck `in_progress` job (id 0) and one stuck `pending`
job (id 1), both created at time 0. -/
def erinStore : Store :=
  { users := [("erin", 3)], jobs := [(0, stuckJob), (1, stuckPendingJob)],
    next_job_id := 2, posts := [], pain_points := [], analyses := [],
    recommendations := [] }

/-- C6 witness: with a 30-minute timeout at `now = 2000` (cutoff 200), the
sweep fails the job stuck `in_progress` since 0 with
`"Job timed out after 33 minutes"` and the job stuck `pending` since 0 with
`"Job timed out (pending too long)"`, setting `completed_at` on both. -/
theorem C6_witness :
    (∃ j', lookupKey (check_stuck_jobs erinStore 30 2000).snd.jobs 0 = some j'
      ∧ j'.status = "failed"
      ∧ j'.error = some ("Job timed out after "
          ++ pyNatRepr ((2000 - (0 : Int)).toNat / 60) ++ " minutes")
      ∧ j'.completed_at = some 2000)
    ∧ (∃ j', lookupKey (check_stuck_jobs erinStore 30 2000).snd.jobs 1 = some j'
      ∧ j'.status = "failed"
      ∧ j'.error = some "Job timed out (pending too long)"
      ∧ j'.completed_at = some 2000) :=
  ⟨(C6_watchdog_reaps erinStore 30 2000 0 stuckJob 0 (by decide) rfl).1
      rfl rfl (by decide),
   (C6_watchdog_reaps erinStore 30 2000 1 stuckPendingJob 0 (by decide) rfl).2
      rfl (by decide)⟩

end Insight
